import Mathlib

/-!
Verification of the image-replicator admission webhook core: a shallow
embedding of the registry protocol client (`src/services/registry-client.ts`),
the image reference parser (`src/utils/image-parser.ts`), the credential
lookup (`src/utils/credentials.ts`), the admission decision engine
(`src/handlers/admission.ts`) and the webhook boundary handler
(`src/index.ts`).

Strings are modelled as lists of characters (`Str`) so that every string
operation is structurally recursive and kernel-computable.  Network I/O and
JavaScript runtime builtins (`fetch`, `JSON.parse`, `Date.now`) are modelled
as explicit environment oracles; every observable network call is recorded
in an event trace so that claims about "number of requests issued" can be
stated precisely.
-/

namespace ImageReplicator

/-! ## String model: JS string operations as structural functions on `List Char` -/

abbrev Str := List Char

/-- Convert a Lean string literal to the model type. -/
def str (s : String) : Str := s.toList

/-- JS `s.includes(c)` for a single-character needle. -/
def hasChar (c : Char) : Str → Bool
  | [] => false
  | x :: xs => x = c || hasChar c xs

/-- JS `s.split(c)` for a single-character separator: always returns
`occurrences + 1` pieces, empty pieces included. -/
def splitAll (c : Char) : Str → List Str
  | [] => [[]]
  | x :: xs =>
    match splitAll c xs with
    | [] => [[]]
    | h :: t => if x = c then [] :: h :: t else (x :: h) :: t

/-- JS `Array.prototype.join(sep)`. -/
def joinSep (sep : Str) : List Str → Str
  | [] => []
  | [x] => x
  | x :: xs => x ++ sep ++ joinSep sep xs

/-- Boolean "p is an initial segment of s". -/
def startsWithStr : Str → Str → Bool
  | [], _ => true
  | _ :: _, [] => false
  | p :: ps, s :: ss => p = s && startsWithStr ps ss

/-- Boolean "p is a final segment of s". -/
def endsWithStr (p s : Str) : Bool := startsWithStr p.reverse s.reverse

/-- `x` occurs at the head of `l`. -/
def segAt (x l : Str) : Bool := startsWithStr x l

/-- JS `l.includes(x)` for a string needle: `x` occurs contiguously in `l`. -/
def segIn (x : Str) : Str → Bool
  | [] => segAt x []
  | l@(_ :: ls) => segAt x l || segIn x ls

/-- JS `String.prototype.toLowerCase` (ASCII view, as used for host names). -/
def toLowerStr (s : Str) : Str := s.map Char.toLower

/-- Decimal rendering of a natural number (JS template interpolation). -/
def natToStr (n : Nat) : Str := Nat.toDigits 10 n

/-! ## Data model (`src/types/registry.ts`) -/

structure ImageReference where
  registry : Str
  repository : Str
  tag : Str
  digest : Option Str
  fullImage : Str
  deriving Repr, DecidableEq

/-- `ImageValidationResult`; the source field `exists` is a Lean keyword and
is rendered here as `existsB`. -/
structure ImageValidationResult where
  image : Str
  existsB : Bool
  error : Option Str
  registry : Str
  deriving Repr, DecidableEq

structure RegistryCredentials where
  registry : Str
  username : Str
  password : Str
  deriving Repr, DecidableEq

structure RegistryAuthConfig where
  credentials : List (Str × RegistryCredentials)
  defaultCredentials : Option RegistryCredentials
  deriving Repr

/-! ## Image reference parser (`src/utils/image-parser.ts`) -/

/-- `DEFAULT_REGISTRIES` mapping: only `docker.io` and the empty string are
mapped to the canonical API host. -/
def defaultRegistriesLookup (registry : Str) : Option Str :=
  if registry = str "docker.io" then some (str "registry-1.docker.io")
  else if registry = [] then some (str "registry-1.docker.io")
  else none

/-- `parseImageReference` from `src/utils/image-parser.ts` lines 19-76.
The source's sequence of mutations is rendered as a chain of lets, one per
step (digest, tag, registry, library namespace, normalization). -/
def parseImageReference (image : Str) : ImageReference :=
  -- Check for digest: `repository.split("@")`, destructured to the first
  -- two pieces; finding a digest clears the tag
  let step1 : Str × Option Str × Str :=
    if hasChar '@' image then
      let parts := splitAll '@' image
      (parts.headD [], parts[1]?, [])
    else (image, none, str "latest")
  let repository1 := step1.1
  let digest := step1.2.1
  let tag1 := step1.2.2
  -- Check for tag (only if no digest): split at the *last* colon; a piece
  -- containing `/` after the colon is a registry port, not a tag
  let step2 : Str × Str :=
    if digest.isNone && hasChar ':' repository1 then
      let parts := splitAll ':' repository1
      let potentialTag := parts.getLastD []
      if !hasChar '/' potentialTag then
        (joinSep (str ":") parts.dropLast, potentialTag)
      else (repository1, tag1)
    else (repository1, tag1)
  let repository2 := step2.1
  let tag := step2.2
  -- Check for registry: first path segment contains `.` or `:` or is localhost
  let step3 : Str × Str :=
    if hasChar '/' repository2 then
      let parts := splitAll '/' repository2
      let potentialRegistry := parts.headD []
      if hasChar '.' potentialRegistry || hasChar ':' potentialRegistry
          || potentialRegistry = str "localhost" then
        (potentialRegistry, joinSep (str "/") parts.tail)
      else (str "docker.io", repository2)
    else (str "docker.io", repository2)
  let registry3 := step3.1
  let repository3 := step3.2
  -- For Docker Hub, add the library/ namespace for single-segment names
  let repository :=
    if (registry3 = str "docker.io" || registry3 = str "registry-1.docker.io")
        && !hasChar '/' repository3 then
      str "library/" ++ repository3
    else repository3
  -- Normalize registry through DEFAULT_REGISTRIES
  { registry := (defaultRegistriesLookup registry3).getD registry3
    repository := repository
    tag := tag
    digest := digest
    fullImage := image }

/-- `getRegistryApiUrl` from `src/utils/image-parser.ts` lines 81-112. -/
def getRegistryApiUrl (registry : Str) (insecureRegistries : List Str) : Str :=
  if registry = str "docker.io" || registry = str "registry-1.docker.io" then
    str "https://registry-1.docker.io"
  else if registry = str "gcr.io" || endsWithStr (str ".gcr.io") registry then
    str "https://" ++ registry
  else if registry = str "ghcr.io" || endsWithStr (str ".pkg.github.com") registry then
    str "https://ghcr.io"
  else if startsWithStr (str "http://") registry || startsWithStr (str "https://") registry then
    registry
  else
    let normalizedRegistry := toLowerStr registry
    let isInsecure := insecureRegistries.any fun insecure =>
      normalizedRegistry = toLowerStr insecure
        || startsWithStr (toLowerStr insecure ++ str ":") normalizedRegistry
    if isInsecure then str "http://" ++ registry
    else str "https://" ++ registry

/-- Result of `parseWwwAuthenticate`. -/
structure AuthParams where
  realm : Str
  service : Option Str
  scope : Option Str
  deriving Repr, DecidableEq

/-- `\w` character class of the parameter regex. -/
def isWordChar (c : Char) : Bool :=
  (('a' ≤ c && c ≤ 'z') || ('A' ≤ c && c ≤ 'Z') || ('0' ≤ c && c ≤ '9') || c = '_')

/-- `\s` character class. -/
def isSpaceChar (c : Char) : Bool :=
  (c = ' ' || c = '\t' || c = '\n' || c = '\r')

/-- Take the maximal initial run satisfying `p`, returning it and the rest. -/
def takeRun (p : Char → Bool) : Str → Str × Str
  | [] => ([], [])
  | c :: cs =>
    if p c then
      let (run, rest) := takeRun p cs
      (c :: run, rest)
    else ([], c :: cs)

/-- One attempt of the parameter regex `(\w+)="([^"]+)"` at the head of `s`. -/
def paramAtHead (s : Str) : Option ((Str × Str) × Str) :=
  let (word, rest) := takeRun isWordChar s
  if word = [] then none
  else match rest with
    | '=' :: '"' :: rest' =>
      let (val, rest'') := takeRun (fun c => c ≠ '"') rest'
      if val = [] then none
      else match rest'' with
        | '"' :: rest''' => some ((word, val), rest''')
        | _ => none
    | _ => none

/-- Global scan of the parameter regex over the challenge parameters, keeping
the last binding for a repeated key (JS object assignment).  The fuel (one
unit per input character) only bounds recursion: every step consumes at
least one character, so the fuel never runs out. -/
def scanParamsAux : Nat → Str → List (Str × Str)
  | 0, _ => []
  | _ + 1, [] => []
  | fuel + 1, s@(_ :: tl) =>
    match paramAtHead s with
    | some (kv, rest) => kv :: scanParamsAux fuel rest
    | none => scanParamsAux fuel tl

def scanParams (s : Str) : List (Str × Str) := scanParamsAux s.length s

/-- Last-binding lookup over the scanned parameter list
(later regex matches overwrite earlier ones in the JS object). -/
def lastLookup (key : Str) (l : List (Str × Str)) : Option Str :=
  (l.filter fun kv => kv.1 = key).getLast?.map (·.2)

/-- Case-insensitive search for `Bearer` followed by whitespace; captures the
remainder of the header (`/Bearer\s+(.+)/i` on a single-line header). -/
def findBearerTail : Str → Option Str
  | [] => none
  | s@(_ :: tl) =>
    if startsWithStr (str "bearer") (toLowerStr s) then
      let afterKeyword := s.drop 6
      let (ws, rest) := takeRun isSpaceChar afterKeyword
      if ws ≠ [] && rest ≠ [] then some rest
      else findBearerTail tl
    else findBearerTail tl

/-- `parseWwwAuthenticate` from `src/utils/image-parser.ts` lines 137-161. -/
def parseWwwAuthenticate (header : Str) : Option AuthParams :=
  match findBearerTail header with
  | none => none
  | some tail =>
    let params := scanParams tail
    match lastLookup (str "realm") params with
    | none => none
    | some realm =>
      some {
        realm := realm
        service := lastLookup (str "service") params
        scope := lastLookup (str "scope") params
      }

/-! ## Credential lookup (`src/utils/credentials.ts`) -/

/-- `normalizeRegistryHost` from `src/utils/credentials.ts` lines 127-140. -/
def normalizeRegistryHost (registry : Str) : Str :=
  let host :=
    if startsWithStr (str "https://") registry then registry.drop 8
    else if startsWithStr (str "http://") registry then registry.drop 7
    else registry
  let host := if endsWithStr (str "/") host then host.dropLast else host
  if host = str "docker.io" || host = str "index.docker.io" then
    str "registry-1.docker.io"
  else host

/-- `getCredentialsForRegistry` from `src/utils/credentials.ts` lines 145-165:
exact match on the normalized host, then partial (suffix either way) match in
map insertion order, then the default credentials. -/
def getCredentialsForRegistry (config : RegistryAuthConfig) (registry : Str) :
    Option RegistryCredentials :=
  let normalizedRegistry := normalizeRegistryHost registry
  match config.credentials.lookup normalizedRegistry with
  | some creds => some creds
  | none =>
    match config.credentials.find? fun kv =>
        endsWithStr kv.1 normalizedRegistry || endsWithStr normalizedRegistry kv.1 with
    | some kv => some kv.2
    | none => config.defaultCredentials

/-! ## Registry protocol client (`src/services/registry-client.ts`)

Network I/O is modelled by explicit environment oracles.  One oracle value
describes the outcome of one `fetch` call: either an HTTP response or a
transport-level failure (JS `AbortError` for timeout, `TypeError` for
network errors, or any other thrown error). -/

/-- A bearer-token cache entry (`{ token, expiresAt }`). -/
structure TokenEntry where
  token : Str
  expiresAt : Int
  deriving Repr, DecidableEq

/-- The `Map<string, TokenEntry>` token cache, as an insertion-ordered
association list. -/
abbrev TokenCache := List (Str × TokenEntry)

/-- JS `Map.prototype.get`. -/
def mapGet (cache : TokenCache) (key : Str) : Option TokenEntry :=
  cache.lookup key

/-- JS `Map.prototype.set`: replace in place if the key exists, else append. -/
def mapSet (cache : TokenCache) (key : Str) (v : TokenEntry) : TokenCache :=
  match cache with
  | [] => [(key, v)]
  | (k, w) :: rest => if k = key then (k, v) :: rest else (k, w) :: mapSet rest key v

/-- Outcome of one `fetch` that did not complete with a response. -/
inductive TransportError where
  | abort
  | typeErr (msg : Str)
  | other (msg : Str)
  deriving Repr, DecidableEq

/-- An HTTP response as observed by the client. -/
structure HttpResp where
  status : Nat
  statusText : Str
  wwwAuthenticate : Option Str
  bodyText : Str
  deriving Repr, DecidableEq

/-- Observable network calls, recorded in order of issue. -/
inductive Event where
  | manifestHead (registry repository reference : Str) (auth : Option Str)
  | tokenRequest (realm : Str) (service : Option Str) (scope : Str) (basicAuth : Bool)
  | manifestGet (registry repository reference : Str) (auth : Option Str)
  | manifestPut (registry repository reference : Str) (contentType : Str) (body : Str)
      (auth : Option Str)
  | connectivityProbe (registry : Str)
  | existenceCheck (image : Str)
  deriving Repr, DecidableEq

/-- JS truthiness of an optional string (`undefined` and `""` are falsy). -/
def jsTruthy : Option Str → Bool
  | some s => !s.isEmpty
  | none => false

/-- JS `a || b` on optional strings. -/
def jsOrStr (a b : Option Str) : Option Str :=
  if jsTruthy a then a else b

/-- JS `a || d` on an optional number (`0` is falsy). -/
def jsOrNum (a : Option Int) (d : Int) : Int :=
  match a with
  | some v => if v = 0 then d else v
  | none => d

/-- JS `response.ok` (status in the 200-299 range). -/
def respOk (status : Nat) : Bool := 200 ≤ status && status ≤ 299

/-- Parsed JSON body of a token response (`token` / `access_token` /
`expires_in`). -/
structure TokenJson where
  token : Option Str
  access_token : Option Str
  expires_in : Option Int
  deriving Repr, DecidableEq

/-- Response to the token request; `json` is the result of
`response.json()` (`.error` if the body is not valid JSON). -/
structure TokenFetchResp where
  status : Nat
  statusText : Str
  json : Except Unit TokenJson
  deriving Repr

/-- Environment of one `getToken` call: the two `Date.now()` readings (cache
check, then expiry computation after the fetch) and the outcome of the token
`fetch` (`.error` for any thrown failure, which the source catches). -/
structure TokenEnv where
  nowCheck : Int
  outcome : Except Unit TokenFetchResp
  nowStore : Int
  deriving Repr

/-- The cache key `` `${registry}:${repository}` ``. -/
def cacheKeyOf (imageRef : ImageReference) : Str :=
  imageRef.registry ++ str ":" ++ imageRef.repository

/-- The requested scope `` `repository:${repository}:pull` ``. -/
def buildScope (repository : Str) : Str :=
  str "repository:" ++ repository ++ str ":pull"

/-- The cache-hit test of `getToken` (lines 195-201): a cached entry whose
`expiresAt` is still ahead of `Date.now()`. -/
def cachedLookup (cache : TokenCache) (key : Str) (now : Int) : Option Str :=
  match mapGet cache key with
  | some cached => if cached.expiresAt > now then some cached.token else none
  | none => none

/-- The fetch stage of `getToken` (lines 207-252), reached on a cache miss:
issues the token request; any thrown failure, non-ok status or malformed
body degrades to `none`; a truthy token is cached with the
`expires_in || 300` seconds minus 30s safety margin expiry. -/
def getTokenFetch (authConfig : RegistryAuthConfig) (imageRef : ImageReference)
    (authParams : AuthParams) (env : TokenEnv) (cache : TokenCache) :
    Option Str × TokenCache × List Event :=
  let creds := getCredentialsForRegistry authConfig imageRef.registry
  let ev := Event.tokenRequest authParams.realm authParams.service
    (buildScope imageRef.repository) creds.isSome
  match env.outcome with
  | .error _ => (none, cache, [ev])
  | .ok resp =>
    if !respOk resp.status then (none, cache, [ev])
    else
      match resp.json with
      | .error _ => (none, cache, [ev])
      | .ok data =>
        let tokenVal := jsOrStr data.token data.access_token
        if jsTruthy tokenVal then
          let expiresIn := jsOrNum data.expires_in 300
          let entry : TokenEntry :=
            { token := tokenVal.getD []
              expiresAt := env.nowStore + expiresIn * 1000 - 30000 }
          (some (tokenVal.getD []), mapSet cache (cacheKeyOf imageRef) entry, [ev])
        else (none, cache, [ev])

/-- `getToken` from `src/services/registry-client.ts` lines 181-253.
Returns the token (as the source returns it: the raw cached string on a
cache hit, `token || null` otherwise), the updated cache and the issued
network requests. -/
def getToken (authConfig : RegistryAuthConfig) (imageRef : ImageReference)
    (wwwAuthHeader : Str) (env : TokenEnv) (cache : TokenCache) :
    Option Str × TokenCache × List Event :=
  match parseWwwAuthenticate wwwAuthHeader with
  | none => (none, cache, [])
  | some authParams =>
    match cachedLookup cache (cacheKeyOf imageRef) env.nowCheck with
    | some t => (some t, cache, [])
    | none => getTokenFetch authConfig imageRef authParams env cache

/-- Environment of one `verifyManifest` call: outcome of the unauthenticated
probe, of the (possible) token acquisition, and of the authenticated retry
(which may depend on the token). -/
structure VerifyEnv where
  probe1 : Except TransportError HttpResp
  tokenEnv : TokenEnv
  probe2 : Str → Except TransportError HttpResp

/-- The messages produced by the shared catch blocks of the client. -/
def transportErrorMessage (registry : Str) (timeout : Nat) : TransportError → Str
  | .abort => str "Request to " ++ registry ++ str " timed out after "
      ++ natToStr timeout ++ str "ms"
  | .typeErr m => str "Network error connecting to " ++ registry ++ str ": " ++ m
  | .other m => m

/-- `` `${digest || tag || "latest"}` `` (lines 95, 405, 472). -/
def jsRefOf (imageRef : ImageReference) : Str :=
  match imageRef.digest with
  | some d =>
    if !d.isEmpty then d
    else if !imageRef.tag.isEmpty then imageRef.tag else str "latest"
  | none => if !imageRef.tag.isEmpty then imageRef.tag else str "latest"

/-- The error thrown for a status that is neither 200 nor 404 (line 159). -/
def statusErrorMessage (imageRef : ImageReference) (reference : Str)
    (resp : HttpResp) : Str :=
  str "Registry " ++ imageRef.registry ++ str " returned status "
    ++ natToStr resp.status ++ str " for " ++ imageRef.repository ++ str ":"
    ++ reference ++ str ": " ++ resp.statusText

/-- Final classification of the manifest probe response (lines 139-161):
exactly 200 means exists, exactly 404 means not found, anything else throws. -/
def classifyManifestResponse (imageRef : ImageReference) (reference : Str)
    (resp : HttpResp) : Except Str Bool :=
  if resp.status = 200 then .ok true
  else if resp.status = 404 then .ok false
  else .error (statusErrorMessage imageRef reference resp)

/-- `verifyManifest` from `src/services/registry-client.ts` lines 92-176. -/
def verifyManifest (authConfig : RegistryAuthConfig) (timeout : Nat)
    (imageRef : ImageReference) (env : VerifyEnv) (cache : TokenCache) :
    Except Str Bool × TokenCache × List Event :=
  let reference := jsRefOf imageRef
  let ev1 := Event.manifestHead imageRef.registry imageRef.repository reference none
  match env.probe1 with
  | .error e =>
    (.error (transportErrorMessage imageRef.registry timeout e), cache, [ev1])
  | .ok resp1 =>
    if resp1.status = 401 then
      match resp1.wwwAuthenticate with
      | some hdr =>
        let (tok, cache1, tokEvs) := getToken authConfig imageRef hdr env.tokenEnv cache
        if jsTruthy tok then
          let t := tok.getD []
          let ev2 := Event.manifestHead imageRef.registry imageRef.repository reference (some t)
          match env.probe2 t with
          | .error e =>
            (.error (transportErrorMessage imageRef.registry timeout e), cache1,
              ev1 :: tokEvs ++ [ev2])
          | .ok resp2 =>
            (classifyManifestResponse imageRef reference resp2, cache1,
              ev1 :: tokEvs ++ [ev2])
        else
          (classifyManifestResponse imageRef reference resp1, cache1, ev1 :: tokEvs)
      | none => (classifyManifestResponse imageRef reference resp1, cache, [ev1])
    else (classifyManifestResponse imageRef reference resp1, cache, [ev1])

/-- Configuration of one `RegistryClient` instance (constructor fields). -/
structure ClientConfig where
  authConfig : RegistryAuthConfig
  targetRegistry : Option Str
  timeout : Nat
  insecureRegistries : List Str

/-- Environment of one `checkImageExists` call. -/
structure CheckEnv where
  verifyEnv : VerifyEnv

/-- Target image string built by `checkImageExists` / `cloneImage`
(lines 49-51 and 327-329). -/
def buildTargetImage (target : Str) (ref : ImageReference) : Str :=
  if jsTruthy ref.digest then
    target ++ str "/" ++ ref.repository ++ str "@" ++ ref.digest.getD []
  else
    target ++ str "/" ++ ref.repository ++ str ":"
      ++ (if !ref.tag.isEmpty then ref.tag else str "latest")

/-- The reference actually probed by `checkImageExists`: against the target
registry when one is configured (truthy), otherwise the source reference. -/
def checkRefOf (cfg : ClientConfig) (image : Str) : ImageReference :=
  let imageRef := parseImageReference image
  if jsTruthy cfg.targetRegistry then
    parseImageReference (buildTargetImage (cfg.targetRegistry.getD []) imageRef)
  else imageRef

/-- `checkImageExists` from `src/services/registry-client.ts` lines 42-87:
probes the target registry when one is configured (truthy), otherwise the
source registry, and converts any thrown error into a result value. -/
def checkImageExists (cfg : ClientConfig) (image : Str) (env : CheckEnv)
    (cache : TokenCache) : ImageValidationResult × TokenCache × List Event :=
  let ref := checkRefOf cfg image
  match verifyManifest cfg.authConfig cfg.timeout ref env.verifyEnv cache with
  | (.ok ex, cache1, evs) =>
    ({ image := image, existsB := ex, error := none, registry := ref.registry },
      cache1, evs)
  | (.error m, cache1, evs) =>
    ({ image := image, existsB := false, error := some m, registry := ref.registry },
      cache1, evs)

/-- `[...new Set(images)]`: first-seen-order deduplication by exact string
equality. -/
def dedupAux (seen : List Str) : List Str → List Str
  | [] => []
  | x :: xs => if x ∈ seen then dedupAux seen xs else x :: dedupAux (x :: seen) xs

def dedupFirstSeen (images : List Str) : List Str := dedupAux [] images

/-- Per-image environments for a batch check. -/
structure BatchEnv where
  perImage : Str → CheckEnv

/-- Sequentialized `Promise.all(uniqueImages.map(checkImageExists))`; each
invocation of `checkImageExists` is recorded as an `existenceCheck` event. -/
def runChecks (cfg : ClientConfig) (env : BatchEnv) :
    List Str → TokenCache → List ImageValidationResult × TokenCache × List Event
  | [], cache => ([], cache, [])
  | img :: rest, cache =>
    let (r, cache1, evs1) := checkImageExists cfg img (env.perImage img) cache
    let (rs, cache2, evs2) := runChecks cfg env rest cache1
    (r :: rs, cache2, (Event.existenceCheck img :: evs1) ++ evs2)

/-- `checkImages` from `src/services/registry-client.ts` lines 258-261. -/
def checkImages (cfg : ClientConfig) (env : BatchEnv) (images : List Str)
    (cache : TokenCache) : List ImageValidationResult × TokenCache × List Event :=
  runChecks cfg env (dedupFirstSeen images) cache

/-- Outcome of `testRegistryConnectivity`. -/
structure ConnectivityResult where
  success : Bool
  error : Option Str
  deriving Repr, DecidableEq

/-- Environment of one connectivity probe. -/
structure ConnEnv where
  outcome : Except TransportError HttpResp

/-- `testRegistryConnectivity` from lines 273-313: 200 and 401 both count as
reachable; any other status or transport failure is a described failure. -/
def testRegistryConnectivity (registry : Str) (env : ConnEnv) :
    ConnectivityResult × List Event :=
  let ev := Event.connectivityProbe registry
  match env.outcome with
  | .ok resp =>
    if resp.status = 200 || resp.status = 401 then
      ({ success := true, error := none }, [ev])
    else
      ({ success := false
         error := some (str "Registry returned status " ++ natToStr resp.status
           ++ str ": " ++ resp.statusText) }, [ev])
  | .error .abort =>
    ({ success := false, error := some (str "Connection timeout after 10s") }, [ev])
  | .error (.typeErr m) =>
    ({ success := false, error := some (str "Network error: " ++ m) }, [ev])
  | .error (.other m) =>
    ({ success := false, error := some m }, [ev])

/-- Environment of one `getManifest` call. -/
structure GetManifestEnv where
  get1 : Except TransportError HttpResp
  tokenEnv : TokenEnv
  get2 : Str → Except TransportError HttpResp

/-- `getManifest` from lines 403-465: full `GET` with the same auth-challenge
flow; a non-ok final status throws `Failed to get manifest: ...`. -/
def getManifest (authConfig : RegistryAuthConfig) (timeout : Nat)
    (imageRef : ImageReference) (env : GetManifestEnv) (cache : TokenCache) :
    Except Str Str × TokenCache × List Event :=
  let reference := jsRefOf imageRef
  let finish (resp : HttpResp) : Except Str Str :=
    if respOk resp.status then .ok resp.bodyText
    else .error (str "Failed to get manifest: " ++ natToStr resp.status
      ++ str " " ++ resp.statusText)
  let ev1 := Event.manifestGet imageRef.registry imageRef.repository reference none
  match env.get1 with
  | .error e =>
    (.error (transportErrorMessage imageRef.registry timeout e), cache, [ev1])
  | .ok resp1 =>
    if resp1.status = 401 then
      match resp1.wwwAuthenticate with
      | some hdr =>
        let (tok, cache1, tokEvs) := getToken authConfig imageRef hdr env.tokenEnv cache
        if jsTruthy tok then
          let t := tok.getD []
          let ev2 := Event.manifestGet imageRef.registry imageRef.repository reference (some t)
          match env.get2 t with
          | .error e =>
            (.error (transportErrorMessage imageRef.registry timeout e), cache1,
              ev1 :: tokEvs ++ [ev2])
          | .ok resp2 => (finish resp2, cache1, ev1 :: tokEvs ++ [ev2])
        else (finish resp1, cache1, ev1 :: tokEvs)
      | none => (finish resp1, cache, [ev1])
    else (finish resp1, cache, [ev1])

/-- Result of the `JSON.parse` runtime builtin on a manifest body, restricted
to the one field the source reads (`mediaType`); `.error` models a thrown
`SyntaxError`. -/
structure JsonVal where
  mediaType : Option Str
  deriving Repr, DecidableEq

/-- Environment of one `pushManifest` call. -/
structure PushEnv where
  put1 : Except TransportError HttpResp
  tokenEnv : TokenEnv
  put2 : Str → Except TransportError HttpResp

/-- The fallback content type (line 477). -/
def defaultManifestType : Str :=
  str "application/vnd.docker.distribution.manifest.v2+json"

/-- `pushManifest` from lines 470-525: `PUT` of the exact manifest body with
`Content-Type` from the manifest's declared `mediaType` (JS `||` default);
`JSON.parse` runs before the `try` and its failure propagates to the caller. -/
def pushManifest (authConfig : RegistryAuthConfig) (timeout : Nat)
    (jsonParse : Str → Except Str JsonVal) (imageRef : ImageReference)
    (manifest : Str) (env : PushEnv) (cache : TokenCache) :
    Except Str Unit × TokenCache × List Event :=
  let reference := jsRefOf imageRef
  match jsonParse manifest with
  | .error m => (.error m, cache, [])
  | .ok obj =>
    let contentType :=
      match obj.mediaType with
      | some m => if !m.isEmpty then m else defaultManifestType
      | none => defaultManifestType
    let finish (resp : HttpResp) : Except Str Unit :=
      if respOk resp.status then .ok ()
      else .error (str "Failed to push manifest: " ++ natToStr resp.status
        ++ str " " ++ resp.statusText)
    let ev1 := Event.manifestPut imageRef.registry imageRef.repository reference
      contentType manifest none
    match env.put1 with
    | .error e =>
      (.error (transportErrorMessage imageRef.registry timeout e), cache, [ev1])
    | .ok resp1 =>
      if resp1.status = 401 then
        match resp1.wwwAuthenticate with
        | some hdr =>
          let (tok, cache1, tokEvs) := getToken authConfig imageRef hdr env.tokenEnv cache
          if jsTruthy tok then
            let t := tok.getD []
            let ev2 := Event.manifestPut imageRef.registry imageRef.repository reference
              contentType manifest (some t)
            match env.put2 t with
            | .error e =>
              (.error (transportErrorMessage imageRef.registry timeout e), cache1,
                ev1 :: tokEvs ++ [ev2])
            | .ok resp2 => (finish resp2, cache1, ev1 :: tokEvs ++ [ev2])
          else (finish resp1, cache1, ev1 :: tokEvs)
        | none => (finish resp1, cache, [ev1])
      else (finish resp1, cache, [ev1])

/-- Environment of one `cloneImage` call. -/
structure CloneEnv where
  sourceConn : ConnEnv
  targetConn : ConnEnv
  getEnv : GetManifestEnv
  jsonParse : Str → Except Str JsonVal
  pushEnv : PushEnv

/-- Outcome of one clone attempt. -/
structure CloneOutcome where
  success : Bool
  error : Option Str
  deriving Repr, DecidableEq

/-- JS template interpolation of a possibly-undefined string. -/
def interpOpt : Option Str → Str
  | some e => e
  | none => str "undefined"

/-- The pre-flight failure message thrown at lines 340-343 / 349-352. -/
def cannotConnectMsg (which registry : Str) (err : Option Str) : Str :=
  str "Cannot connect to " ++ which ++ str " registry " ++ registry ++ str ": "
    ++ interpOpt err
    ++ str ". Please check network connectivity, DNS resolution, and firewall rules."

/-- `cloneImage` from lines 318-398: pre-flight connectivity on both ends,
then manifest fetch from source, then push to target; every thrown error is
converted into a failure outcome. -/
def cloneImage (cfg : ClientConfig) (sourceImage targetRegistry : Str)
    (env : CloneEnv) (cache : TokenCache) : CloneOutcome × TokenCache × List Event :=
  let sourceRef := parseImageReference sourceImage
  let targetImage := buildTargetImage targetRegistry sourceRef
  let targetRef := parseImageReference targetImage
  let (sc, evS) := testRegistryConnectivity sourceRef.registry env.sourceConn
  if !sc.success then
    ({ success := false
       error := some (cannotConnectMsg (str "source") sourceRef.registry sc.error) },
      cache, evS)
  else
    let (tc, evT) := testRegistryConnectivity targetRef.registry env.targetConn
    if !tc.success then
      ({ success := false
         error := some (cannotConnectMsg (str "target") targetRef.registry tc.error) },
        cache, evS ++ evT)
    else
      match getManifest cfg.authConfig cfg.timeout sourceRef env.getEnv cache with
      | (.error m, cache1, evG) =>
        ({ success := false, error := some m }, cache1, evS ++ evT ++ evG)
      | (.ok manifest, cache1, evG) =>
        if manifest.isEmpty then
          ({ success := false, error := some (str "Failed to fetch source manifest") },
            cache1, evS ++ evT ++ evG)
        else
          match pushManifest cfg.authConfig cfg.timeout env.jsonParse targetRef
              manifest env.pushEnv cache1 with
          | (.error m, cache2, evP) =>
            ({ success := false, error := some m }, cache2, evS ++ evT ++ evG ++ evP)
          | (.ok _, cache2, evP) =>
            ({ success := true, error := none }, cache2, evS ++ evT ++ evG ++ evP)

/-! ## Admission decision engine (`src/handlers/admission.ts`)

Workload objects are modelled by `Dyn`, a dynamic record carrying exactly the
fields the extraction code probes (`containers`, `initContainers`,
`ephemeralContainers`, `template.spec`, `jobTemplate.spec`); an absent field
is `none`.  The `template` and `jobTemplate` fields each model the optional
wrapper node together with its optional `spec` field. -/

structure Container where
  image : Option Str
  deriving Repr, DecidableEq

inductive Dyn : Type where
  | mk (containers initContainers ephemeralContainers : Option (List Container))
       (template : Option (Option Dyn))
       (jobTemplate : Option (Option Dyn))
  deriving Repr

/-- `images.push(c.image)` for every container with a truthy image. -/
def pushImages (cs : List Container) (images : List Str) : List Str :=
  images ++ cs.filterMap fun c =>
    match c.image with
    | some i => if !i.isEmpty then some i else none
    | none => none

/-- `extractImagesFromPodSpec` (lines 58-81). -/
def extractImagesFromPodSpec (spec : Option Dyn) (images : List Str) : List Str :=
  match spec with
  | none => images
  | some (.mk cs ics ecs _ _) =>
    let images := match cs with | some l => pushImages l images | none => images
    let images := match ics with | some l => pushImages l images | none => images
    match ecs with | some l => pushImages l images | none => images

/-- `extractImagesFromPodTemplateSpec` (lines 83-90); the argument is the
template node's `spec` field. -/
def extractImagesFromPodTemplateSpec (tmplSpec : Option Dyn) (images : List Str) :
    List Str :=
  match tmplSpec with
  | some s => extractImagesFromPodSpec (some s) images
  | none => images

/-- `extractImagesFromJobSpec` (lines 92-96). -/
def extractImagesFromJobSpec (spec : Option Dyn) (images : List Str) : List Str :=
  match spec with
  | some (.mk _ _ _ (some tmpl) _) => extractImagesFromPodTemplateSpec tmpl images
  | _ => images

/-- `extractImagesFromCronJobSpec` (lines 98-102). -/
def extractImagesFromCronJobSpec (spec : Option Dyn) (images : List Str) : List Str :=
  match spec with
  | some (.mk _ _ _ _ (some (some j))) => extractImagesFromJobSpec (some j) images
  | _ => images

/-- `extractImagesFromDeploymentSpec` (lines 104-111, also ReplicaSet). -/
def extractImagesFromDeploymentSpec (spec : Option Dyn) (images : List Str) : List Str :=
  match spec with
  | some (.mk _ _ _ (some tmpl) _) => extractImagesFromPodTemplateSpec tmpl images
  | _ => images

/-- `extractImagesFromStatefulSetSpec` (lines 113-120). -/
def extractImagesFromStatefulSetSpec (spec : Option Dyn) (images : List Str) : List Str :=
  match spec with
  | some (.mk _ _ _ (some tmpl) _) => extractImagesFromPodTemplateSpec tmpl images
  | _ => images

/-- `extractImagesFromDaemonSetSpec` (lines 122-129). -/
def extractImagesFromDaemonSetSpec (spec : Option Dyn) (images : List Str) : List Str :=
  match spec with
  | some (.mk _ _ _ (some tmpl) _) => extractImagesFromPodTemplateSpec tmpl images
  | _ => images

/-- `tryExtractFromUnknownSpec` (lines 131-148): structural fallback probing
`template.spec` and a top-level `containers` array. -/
def tryExtractFromUnknownSpec (spec : Dyn) (images : List Str) : List Str :=
  let images :=
    match spec with
    | .mk _ _ _ (some (some s)) _ => extractImagesFromPodSpec (some s) images
    | _ => images
  match spec with
  | .mk (some cs) _ _ _ _ => pushImages cs images
  | _ => images

/-- `extractImagesFromObject` (lines 22-56). -/
def extractImagesFromObject (kind : Str) (spec : Option Dyn) : List Str :=
  let images : List Str := []
  let images :=
    if kind = str "Pod" then extractImagesFromPodSpec spec images
    else if kind = str "Job" then extractImagesFromJobSpec spec images
    else if kind = str "CronJob" then extractImagesFromCronJobSpec spec images
    else if kind = str "Deployment" || kind = str "ReplicaSet" then
      extractImagesFromDeploymentSpec spec images
    else if kind = str "StatefulSet" then extractImagesFromStatefulSetSpec spec images
    else if kind = str "DaemonSet" then extractImagesFromDaemonSetSpec spec images
    else
      match spec with
      | some s => tryExtractFromUnknownSpec s images
      | none => images
  dedupFirstSeen images

/-- The fields of `request.request` the handler reads.  `kindObj = none`
models a malformed request whose `kind` object is missing, on which the
source's unconditional `kind.kind` access throws a `TypeError`. -/
structure AdmissionRequest where
  uid : Str
  kindObj : Option Str
  objectSpec : Option Dyn
  operation : Str
  subResource : Option Str

structure AdmissionStatus where
  code : Nat
  message : Str
  deriving Repr, DecidableEq

structure AdmissionResponseInner where
  uid : Str
  allowed : Bool
  status : Option AdmissionStatus
  warnings : Option (List Str)
  deriving Repr, DecidableEq

structure AdmissionReviewResponse where
  apiVersion : Str
  kind : Str
  response : AdmissionResponseInner
  deriving Repr, DecidableEq

/-- `createAllowedResponse` (lines 292-305). -/
def createAllowedResponse (uid : Str) (warnings : Option (List Str)) :
    AdmissionReviewResponse :=
  { apiVersion := str "admission.k8s.io/v1"
    kind := str "AdmissionReview"
    response := { uid := uid, allowed := true, status := none, warnings := warnings } }

/-- `createDeniedResponse` (lines 310-326). -/
def createDeniedResponse (uid : Str) (message : Str) : AdmissionReviewResponse :=
  { apiVersion := str "admission.k8s.io/v1"
    kind := str "AdmissionReview"
    response := { uid := uid, allowed := false
                  status := some { code := 403, message := message }
                  warnings := none } }

/-- One per-missing-image line of `formatValidationError` (lines 332-337). -/
def missingLine (r : ImageValidationResult) : Str :=
  let errorInfo := if jsTruthy r.error then str " (" ++ interpOpt r.error ++ str ")" else []
  str "  - " ++ r.image ++ str " in " ++ r.registry ++ errorInfo

/-- `formatValidationError` (lines 331-340). -/
def formatValidationError (missingImages : List ImageValidationResult) : Str :=
  str "Image validation failed. The following images do not exist or are not accessible:\n"
    ++ joinSep (str "\n") (missingImages.map missingLine)

/-- The warning lines collected by `formatValidationWarnings` (lines 350-357). -/
def warningsListOf (results : List ImageValidationResult) : List Str :=
  results.filterMap fun r =>
    if r.existsB && jsTruthy r.error then
      some (str "Image " ++ r.image ++ str " exists but had validation issues: "
        ++ interpOpt r.error)
    else none

/-- `formatValidationWarnings` (lines 345-360). -/
def formatValidationWarnings (results : List ImageValidationResult) :
    Option (List Str) :=
  let warnings := warningsListOf results
  if warnings.length > 0 then some warnings else none

/-- A clone result tagged with its image (line 233). -/
structure CloneResultWithImage where
  image : Str
  success : Bool
  error : Option Str
  deriving Repr, DecidableEq

/-- One per-failed-clone line (line 242). -/
def cloneFailLine (r : CloneResultWithImage) : Str :=
  str "  - " ++ r.image ++ str ": " ++ interpOpt r.error

/-- The aggregated clone-failure message (lines 241-242). -/
def cloneFailMessage (failedClones : List CloneResultWithImage) : Str :=
  str "Failed to clone " ++ natToStr failedClones.length ++ str " image(s):\n"
    ++ joinSep (str "\n") (failedClones.map cloneFailLine)

/-- Per-request environment of the handler. -/
structure HandlerEnv where
  batch : BatchEnv
  clonePerImage : Str → CloneEnv

/-- Sequentialized `Promise.all(missingImages.map(cloneImage))` (lines 230-235). -/
def runClones (cfg : ClientConfig) (env : Str → CloneEnv) (target : Str) :
    List ImageValidationResult → TokenCache →
      List CloneResultWithImage × TokenCache × List Event
  | [], cache => ([], cache, [])
  | m :: rest, cache =>
    let (o, cache1, evs1) := cloneImage cfg m.image target (env m.image) cache
    let (os, cache2, evs2) := runClones cfg env target rest cache1
    ({ image := m.image, success := o.success, error := o.error } :: os, cache2,
      evs1 ++ evs2)

/-- The `TypeError` message thrown when `request.request.kind` is missing
(engine-specific text, modelled abstractly). -/
def typeErrKindMsg : Str := str "undefined is not an object (evaluating kind.kind)"

/-- The validation stage of `handleAdmissionReview` (lines 210-275): batch
existence check, missing-image filter, and the clone / deny / allow
branching. -/
def validationStage (cfg : ClientConfig) (env : HandlerEnv) (uid : Str)
    (images : List Str) (cache : TokenCache) :
    Except Str AdmissionReviewResponse × TokenCache × List Event :=
  let (results, cache1, evs1) := checkImages cfg env.batch images cache
  let missingImages := results.filter fun r => !r.existsB
  let targetRegistry := cfg.targetRegistry
  if missingImages.length > 0 && jsTruthy targetRegistry then
    let (cloneResults, cache2, evs2) :=
      runClones cfg env.clonePerImage (targetRegistry.getD []) missingImages cache1
    let failedClones := cloneResults.filter fun r => !r.success
    if failedClones.length > 0 then
      (.ok (createDeniedResponse uid (cloneFailMessage failedClones)),
        cache2, evs1 ++ evs2)
    else
      (.ok (createAllowedResponse uid (formatValidationWarnings results)),
        cache2, evs1 ++ evs2)
  else if missingImages.length > 0 then
    (.ok (createDeniedResponse uid (formatValidationError missingImages)),
      cache1, evs1)
  else
    (.ok (createAllowedResponse uid (formatValidationWarnings results)),
      cache1, evs1)

/-- `handleAdmissionReview` from `src/handlers/admission.ts` lines 153-287.
The source has no `catch`: the malformed-kind `TypeError` propagates to the
caller, modelled by the `Except.error` result. -/
def handleAdmissionReview (cfg : ClientConfig) (env : HandlerEnv)
    (req : AdmissionRequest) (cache : TokenCache) :
    Except Str AdmissionReviewResponse × TokenCache × List Event :=
  match req.kindObj with
  | none => (.error typeErrKindMsg, cache, [])
  | some kindStr =>
    if jsTruthy req.subResource then
      (.ok (createAllowedResponse req.uid none), cache, [])
    else if req.operation ≠ str "CREATE" && req.operation ≠ str "UPDATE" then
      (.ok (createAllowedResponse req.uid none), cache, [])
    else
      let images := extractImagesFromObject kindStr req.objectSpec
      if images.length = 0 then
        (.ok (createAllowedResponse req.uid none), cache, [])
      else
        validationStage cfg env req.uid images cache

/-! ## Webhook boundary (`src/index.ts`, `/validate` POST handler) -/

/-- What reached the `/validate` route: a wrong content type, a body that
failed JSON parsing (the thrown `SyntaxError` message), or a parsed review
(`none` when the body has no `request` object). -/
inductive ValidateInput where
  | badContentType
  | jsonError (msg : Str)
  | parsed (req : Option AdmissionRequest)

/-- An HTTP reply from the webhook server. -/
inductive HttpReply where
  | text (status : Nat) (body : Str)
  | json (status : Nat) (body : AdmissionReviewResponse)

/-- The fail-open response built in the catch block of `src/index.ts`
lines 179-198: `uid` is the empty string, `allowed` is true, and a single
warning describes the failure. -/
def failOpenResponse (msg : Str) : AdmissionReviewResponse :=
  { apiVersion := str "admission.k8s.io/v1"
    kind := str "AdmissionReview"
    response := { uid := []
                  allowed := true
                  status := none
                  warnings := some [str "Webhook error: " ++ msg] } }

/-- The `/validate` POST flow of `src/index.ts` lines 153-199: content-type
check, body parse, `request.uid` presence check, then the engine call with
every thrown error converted into the fail-open response. -/
def webhookValidate (cfg : ClientConfig) (env : HandlerEnv) (input : ValidateInput)
    (cache : TokenCache) : HttpReply × TokenCache × List Event :=
  match input with
  | .badContentType =>
    (.text 415 (str "Content-Type must be application/json"), cache, [])
  | .jsonError msg => (.json 200 (failOpenResponse msg), cache, [])
  | .parsed none =>
    (.text 400 (str "Invalid AdmissionReview: missing request.uid"), cache, [])
  | .parsed (some req) =>
    if req.uid.isEmpty then
      (.text 400 (str "Invalid AdmissionReview: missing request.uid"), cache, [])
    else
      match handleAdmissionReview cfg env req cache with
      | (.ok resp, cache1, evs) => (.json 200 resp, cache1, evs)
      | (.error msg, cache1, evs) => (.json 200 (failOpenResponse msg), cache1, evs)

/-! ## Helper lemmas -/

theorem hasChar_eq_false (c : Char) (l : Str) (h : c ∉ l) : hasChar c l = false := by
  induction l with
  | nil => rfl
  | cons x xs ih =>
    simp only [hasChar, Bool.or_eq_false_iff]
    constructor
    · simp only [List.mem_cons, not_or] at h
      simp [Ne.symm h.1]
    · exact ih (by simp_all)

theorem hasChar_append (c : Char) (s t : Str) :
    hasChar c (s ++ t) = (hasChar c s || hasChar c t) := by
  induction s with
  | nil => simp [hasChar]
  | cons x xs ih => simp [hasChar, ih, Bool.or_assoc]

theorem splitAll_no_occurrence (c : Char) (l : Str) (h : c ∉ l) :
    splitAll c l = [l] := by
  induction l with
  | nil => rfl
  | cons x xs ih =>
    simp only [List.mem_cons, not_or] at h
    simp only [splitAll]
    rw [ih h.2]
    simp [Ne.symm h.1]

theorem splitAll_sep_head (c : Char) (s t : Str) (h : c ∉ s) :
    splitAll c (s ++ c :: t) = s :: splitAll c t := by
  induction s with
  | nil =>
    simp only [List.nil_append, splitAll]
    match h' : splitAll c t with
    | [] => simp
    | u :: us => simp
  | cons x xs ih =>
    simp only [List.mem_cons, not_or] at h
    simp only [List.cons_append, splitAll]
    rw [show xs.append (c :: t) = xs ++ c :: t from rfl, ih h.2]
    simp [Ne.symm h.1]

theorem startsWithStr_self_append (x t : Str) : startsWithStr x (x ++ t) = true := by
  induction x with
  | nil => rfl
  | cons c cs ih => simp [startsWithStr, ih]

theorem segIn_of_decomp (x l s t : Str) (h : l = s ++ x ++ t) (hx : x ≠ []) :
    segIn x l = true := by
  subst h
  induction s with
  | nil =>
    match hx' : x, t with
    | c :: cs, t =>
      simp only [List.nil_append, List.cons_append, segIn, segAt, Bool.or_eq_true]
      exact Or.inl (by
        simpa [List.cons_append] using startsWithStr_self_append (c :: cs) t)
  | cons y ys ih =>
    match hx2 : x ++ t with
    | [] => simp_all
    | z :: zs =>
      simp only [List.cons_append, segIn]
      rw [Bool.or_eq_true]
      right
      simpa using ih

theorem joinSep_mem_decomp (sep : Str) (f : α → Str) (r : α) (l : List α)
    (h : r ∈ l) : ∃ s t, joinSep sep (l.map f) = s ++ f r ++ t := by
  induction l with
  | nil => cases h
  | cons a as ih =>
    rcases List.mem_cons.mp h with h1 | h2
    · subst h1
      match as with
      | [] => exact ⟨[], [], by simp [joinSep]⟩
      | b :: bs =>
        refine ⟨[], sep ++ joinSep sep ((b :: bs).map f), ?_⟩
        simp [joinSep]
    · rcases ih h2 with ⟨s, t, hst⟩
      match as with
      | [] => cases h2
      | b :: bs =>
        refine ⟨f a ++ sep ++ s, t, ?_⟩
        simp only [List.map_cons, joinSep]
        rw [show joinSep sep (f b :: bs.map f) = s ++ f r ++ t from by
          simpa using hst]
        simp

theorem mapGet_mapSet_self (cache : TokenCache) (k : Str) (v : TokenEntry) :
    mapGet (mapSet cache k v) k = some v := by
  induction cache with
  | nil => simp [mapSet, mapGet, List.lookup]
  | cons kv rest ih =>
    rcases kv with ⟨k', w⟩
    by_cases h : k' = k
    · subst h
      simp [mapSet, mapGet, List.lookup]
    · simp only [mapSet, if_neg h]
      simp only [mapGet, List.lookup] at ih ⊢
      have : (k == k') = false := by
        simp [beq_iff_eq]
        exact fun hk => h hk.symm
      simp [this, ih]

theorem dedupAux_nodup (seen l : List Str) :
    (dedupAux seen l).Nodup ∧ ∀ x ∈ dedupAux seen l, x ∉ seen := by
  induction l generalizing seen with
  | nil => simp [dedupAux]
  | cons x xs ih =>
    by_cases hx : x ∈ seen
    · simpa [dedupAux, hx] using ih seen
    · have ihx := ih (x :: seen)
      constructor
      · simp only [dedupAux, if_neg hx, List.nodup_cons]
        refine ⟨fun hc => ?_, ihx.1⟩
        exact (ihx.2 x hc) (by simp)
      · intro y hy
        simp only [dedupAux, if_neg hx, List.mem_cons] at hy
        rcases hy with rfl | hy
        · exact hx
        · intro hs
          exact (ihx.2 y hy) (by simp [hs])

theorem dedupFirstSeen_nodup (l : List Str) : (dedupFirstSeen l).Nodup :=
  (dedupAux_nodup [] l).1

/-- Event classifiers used to count network requests of one kind. -/
def isTokReqEv : Event → Bool
  | .tokenRequest _ _ _ _ => true
  | _ => false

def isExistenceCheckEv : Event → Bool
  | .existenceCheck _ => true
  | _ => false

def isManifestGetEv : Event → Bool
  | .manifestGet _ _ _ _ => true
  | _ => false

def isManifestPutEv : Event → Bool
  | .manifestPut _ _ _ _ _ _ => true
  | _ => false

/-- The fetch stage always emits exactly one token request. -/
theorem getTokenFetch_events (authConfig : RegistryAuthConfig)
    (imageRef : ImageReference) (p : AuthParams) (env : TokenEnv)
    (cache : TokenCache) :
    (getTokenFetch authConfig imageRef p env cache).2.2 =
      [Event.tokenRequest p.realm p.service (buildScope imageRef.repository)
        (getCredentialsForRegistry authConfig imageRef.registry).isSome] := by
  unfold getTokenFetch
  rcases env.outcome with _ | resp
  · rfl
  · rcases hj : resp.json with _ | data
    · by_cases hok : (!respOk resp.status) = true <;> simp [hok, hj]
    · by_cases hok : (!respOk resp.status) = true
      · simp [hok]
      · by_cases ht : jsTruthy (jsOrStr data.token data.access_token) = true <;>
          simp [hok, hj, ht]

/-- `getToken` emits either no request (header unparseable, or cache hit) or
exactly one token request. -/
theorem getToken_events_shape (authConfig : RegistryAuthConfig)
    (imageRef : ImageReference) (hdr : Str) (env : TokenEnv) (cache : TokenCache) :
    (getToken authConfig imageRef hdr env cache).2.2 = [] ∨
      ∃ realm svc scope b,
        (getToken authConfig imageRef hdr env cache).2.2 =
          [Event.tokenRequest realm svc scope b] := by
  unfold getToken
  split
  · left; rfl
  · split
    · left; rfl
    · right
      rw [getTokenFetch_events]
      exact ⟨_, _, _, _, rfl⟩

/-- With a valid cached token, the cache-hit test returns it. -/
theorem cachedLookup_hit (cache : TokenCache) (key : Str) (now : Int)
    (entry : TokenEntry) (hget : mapGet cache key = some entry)
    (hvalid : entry.expiresAt > now) :
    cachedLookup cache key now = some entry.token := by
  unfold cachedLookup
  simp [hget, hvalid]

/-- Without a valid entry (absent or expired), the cache-hit test fails. -/
theorem cachedLookup_miss (cache : TokenCache) (key : Str) (now : Int)
    (hmiss : ∀ entry, mapGet cache key = some entry → entry.expiresAt ≤ now) :
    cachedLookup cache key now = none := by
  unfold cachedLookup
  cases hg : mapGet cache key with
  | none => rfl
  | some entry =>
    have := hmiss entry hg
    simp [show ¬(entry.expiresAt > now) from not_lt.mpr this]

/-- On a valid cached token, `getToken` returns the cached string, leaves the
cache unchanged, and issues no request at all. -/
theorem getToken_cacheHit (authConfig : RegistryAuthConfig)
    (imageRef : ImageReference) (hdr : Str) (env : TokenEnv) (cache : TokenCache)
    (entry : TokenEntry) (hget : mapGet cache (cacheKeyOf imageRef) = some entry)
    (hvalid : entry.expiresAt > env.nowCheck) :
    getToken authConfig imageRef hdr env cache =
      ((parseWwwAuthenticate hdr).map fun _ => entry.token, cache, []) := by
  unfold getToken
  cases hp : parseWwwAuthenticate hdr with
  | none => simp
  | some p => simp [cachedLookup_hit cache _ env.nowCheck entry hget hvalid]

/-- Without a valid cached token, a parseable challenge always leads to
exactly one token request being issued (whatever its outcome). -/
theorem getToken_miss_event (authConfig : RegistryAuthConfig)
    (imageRef : ImageReference) (hdr : Str) (env : TokenEnv) (cache : TokenCache)
    (p : AuthParams) (hp : parseWwwAuthenticate hdr = some p)
    (hmiss : ∀ entry, mapGet cache (cacheKeyOf imageRef) = some entry →
      entry.expiresAt ≤ env.nowCheck) :
    (getToken authConfig imageRef hdr env cache).2.2 =
      [Event.tokenRequest p.realm p.service (buildScope imageRef.repository)
        (getCredentialsForRegistry authConfig imageRef.registry).isSome] := by
  unfold getToken
  rw [hp, cachedLookup_miss cache _ env.nowCheck hmiss]
  exact getTokenFetch_events authConfig imageRef p env cache

/-- A successful token fetch with a truthy token stores the token under the
`registry:repository` key with expiry `nowStore + expiresIn·1000 − 30000`,
where `expiresIn` is `expires_in || 300` (JS falsy default). -/
theorem getToken_store (authConfig : RegistryAuthConfig)
    (imageRef : ImageReference) (hdr : Str) (env : TokenEnv) (cache : TokenCache)
    (p : AuthParams) (hp : parseWwwAuthenticate hdr = some p)
    (hmiss : ∀ entry, mapGet cache (cacheKeyOf imageRef) = some entry →
      entry.expiresAt ≤ env.nowCheck)
    (resp : TokenFetchResp) (hout : env.outcome = .ok resp)
    (hok : respOk resp.status = true)
    (data : TokenJson) (hjson : resp.json = .ok data)
    (htruthy : jsTruthy (jsOrStr data.token data.access_token) = true) :
    mapGet (getToken authConfig imageRef hdr env cache).2.1 (cacheKeyOf imageRef) =
      some { token := (jsOrStr data.token data.access_token).getD []
             expiresAt := env.nowStore + jsOrNum data.expires_in 300 * 1000 - 30000 } := by
  unfold getToken
  rw [hp, cachedLookup_miss cache _ env.nowCheck hmiss]
  unfold getTokenFetch
  rw [hout]
  simp only [hok, Bool.not_true, Bool.false_eq_true, if_false, hjson, htruthy, if_true]
  simp [mapGet_mapSet_self]

/-- A transport failure of the first probe resolves `verifyManifest` to the
corresponding classified error message. -/
theorem verifyManifest_transport (authConfig : RegistryAuthConfig) (timeout : Nat)
    (imageRef : ImageReference) (env : VerifyEnv) (cache : TokenCache)
    (e : TransportError) (h : env.probe1 = .error e) :
    (verifyManifest authConfig timeout imageRef env cache).1 =
      .error (transportErrorMessage imageRef.registry timeout e) := by
  unfold verifyManifest
  rw [h]

/-- The final-response classification drives the result of `verifyManifest`
whenever the first probe returns a non-401 response. -/
theorem verifyManifest_classify_non401 (authConfig : RegistryAuthConfig)
    (timeout : Nat) (imageRef : ImageReference) (env : VerifyEnv)
    (cache : TokenCache) (resp : HttpResp) (h : env.probe1 = .ok resp)
    (h401 : resp.status ≠ 401) :
    (verifyManifest authConfig timeout imageRef env cache).1 =
      classifyManifestResponse imageRef (jsRefOf imageRef) resp := by
  unfold verifyManifest
  rw [h]
  simp [h401]

/-- `verifyManifest` never records an `existenceCheck` event. -/
theorem verifyManifest_no_checkEv (authConfig : RegistryAuthConfig) (timeout : Nat)
    (imageRef : ImageReference) (env : VerifyEnv) (cache : TokenCache) :
    ((verifyManifest authConfig timeout imageRef env cache).2.2).filter
      isExistenceCheckEv = [] := by
  unfold verifyManifest
  rcases hp1 : env.probe1 with e | resp1
  · rfl
  · by_cases h401 : resp1.status = 401
    · rcases hw : resp1.wwwAuthenticate with _ | hdr
      · simp [h401, hw, isExistenceCheckEv]
      · simp only [h401, if_pos, hw]
        rcases hgt : getToken authConfig imageRef hdr env.tokenEnv cache with
          ⟨tok, cache1, tokEvs⟩
        have hshape := getToken_events_shape authConfig imageRef hdr env.tokenEnv cache
        rw [hgt] at hshape
        simp only at hshape
        by_cases ht : jsTruthy tok = true
        · rcases hp2 : env.probe2 (tok.getD []) with e2 | resp2 <;>
          · simp only [hgt, ht, if_true, hp2]
            rcases hshape with h0 | ⟨r, s, sc, b, h1⟩ <;>
              simp_all [isExistenceCheckEv, List.filter_append, List.filter]
        · simp only [hgt, ht]
          rcases hshape with h0 | ⟨r, s, sc, b, h1⟩ <;>
            simp_all [isExistenceCheckEv, List.filter]
    · simp [h401, isExistenceCheckEv]

/-- With a valid cached token for the probed `(registry, repository)`, a
manifest verification issues no token request at all. -/
theorem verifyManifest_no_tokreq_of_hit (authConfig : RegistryAuthConfig)
    (timeout : Nat) (imageRef : ImageReference) (env : VerifyEnv)
    (cache : TokenCache) (entry : TokenEntry)
    (hget : mapGet cache (cacheKeyOf imageRef) = some entry)
    (hvalid : entry.expiresAt > env.tokenEnv.nowCheck) :
    ((verifyManifest authConfig timeout imageRef env cache).2.2).filter
      isTokReqEv = [] := by
  unfold verifyManifest
  rcases hp1 : env.probe1 with e | resp1
  · rfl
  · by_cases h401 : resp1.status = 401
    · rcases hw : resp1.wwwAuthenticate with _ | hdr
      · simp [h401, hw, isTokReqEv]
      · simp only [h401, if_pos, hw]
        have hgt := getToken_cacheHit authConfig imageRef hdr env.tokenEnv cache
          entry hget hvalid
        rw [hgt]
        by_cases ht : jsTruthy ((parseWwwAuthenticate hdr).map fun _ => entry.token) = true
        · rcases hp2 : env.probe2 ((((parseWwwAuthenticate hdr).map
              fun _ => entry.token)).getD []) with e2 | resp2 <;>
            simp [ht, hp2, isTokReqEv, List.filter]
        · simp [ht, isTokReqEv, List.filter]
    · simp [h401, isTokReqEv]

/-- An expired (or absent) cache entry together with a parseable challenge on
a 401 first probe leads to a token request being issued. -/
theorem verifyManifest_tokreq_of_miss (authConfig : RegistryAuthConfig)
    (timeout : Nat) (imageRef : ImageReference) (env : VerifyEnv)
    (cache : TokenCache) (resp1 : HttpResp) (hdr : Str) (p : AuthParams)
    (hp1 : env.probe1 = .ok resp1) (h401 : resp1.status = 401)
    (hw : resp1.wwwAuthenticate = some hdr)
    (hp : parseWwwAuthenticate hdr = some p)
    (hmiss : ∀ entry, mapGet cache (cacheKeyOf imageRef) = some entry →
      entry.expiresAt ≤ env.tokenEnv.nowCheck) :
    Event.tokenRequest p.realm p.service (buildScope imageRef.repository)
        (getCredentialsForRegistry authConfig imageRef.registry).isSome ∈
      (verifyManifest authConfig timeout imageRef env cache).2.2 := by
  unfold verifyManifest
  rw [hp1]
  simp only [h401, if_pos, hw]
  rcases hgt : getToken authConfig imageRef hdr env.tokenEnv cache with
    ⟨tok, cache1, tokEvs⟩
  have hev := getToken_miss_event authConfig imageRef hdr env.tokenEnv cache p hp hmiss
  rw [hgt] at hev
  simp only at hev
  by_cases ht : jsTruthy tok = true
  · rcases hp2 : env.probe2 (tok.getD []) with e2 | resp2 <;>
      simp [ht, hp2, hev]
  · simp [ht, hev]

/-- The result record of `checkImageExists` always carries the input image
string. -/
theorem checkImageExists_image (cfg : ClientConfig) (image : Str) (env : CheckEnv)
    (cache : TokenCache) :
    (checkImageExists cfg image env cache).1.image = image := by
  unfold checkImageExists
  rcases hv : verifyManifest cfg.authConfig cfg.timeout (checkRefOf cfg image)
      env.verifyEnv cache with ⟨r, c, e⟩
  rcases r with m | b <;> simp [hv]

/-- A thrown verification error surfaces as a `exists=false` result with the
error message attached — never as an exception and never as `exists=true`. -/
theorem checkImageExists_error (cfg : ClientConfig) (image : Str) (env : CheckEnv)
    (cache : TokenCache) (m : Str)
    (h : (verifyManifest cfg.authConfig cfg.timeout (checkRefOf cfg image)
      env.verifyEnv cache).1 = .error m) :
    (checkImageExists cfg image env cache).1 =
      { image := image, existsB := false, error := some m
        registry := (checkRefOf cfg image).registry } := by
  unfold checkImageExists
  rcases hv : verifyManifest cfg.authConfig cfg.timeout (checkRefOf cfg image)
      env.verifyEnv cache with ⟨r, c, e⟩
  rw [hv] at h
  simp only at h
  subst h
  simp [hv]

/-- A clean verification outcome surfaces as a result with no error field. -/
theorem checkImageExists_ok (cfg : ClientConfig) (image : Str) (env : CheckEnv)
    (cache : TokenCache) (b : Bool)
    (h : (verifyManifest cfg.authConfig cfg.timeout (checkRefOf cfg image)
      env.verifyEnv cache).1 = .ok b) :
    (checkImageExists cfg image env cache).1 =
      { image := image, existsB := b, error := none
        registry := (checkRefOf cfg image).registry } := by
  unfold checkImageExists
  rcases hv : verifyManifest cfg.authConfig cfg.timeout (checkRefOf cfg image)
      env.verifyEnv cache with ⟨r, c, e⟩
  rw [hv] at h
  simp only at h
  subst h
  simp [hv]

/-- The invariant behind claim C10: a produced result never combines
`exists=true` with a set error field. -/
theorem checkImageExists_inv (cfg : ClientConfig) (image : Str) (env : CheckEnv)
    (cache : TokenCache) :
    ((checkImageExists cfg image env cache).1.existsB &&
      (checkImageExists cfg image env cache).1.error.isSome) = false := by
  unfold checkImageExists
  rcases hv : verifyManifest cfg.authConfig cfg.timeout (checkRefOf cfg image)
      env.verifyEnv cache with ⟨r, c, e⟩
  rcases r with m | b <;> simp [hv]

/-- `checkImageExists` issues exactly the network calls of its inner
verification. -/
theorem checkImageExists_events (cfg : ClientConfig) (image : Str) (env : CheckEnv)
    (cache : TokenCache) :
    (checkImageExists cfg image env cache).2.2 =
      (verifyManifest cfg.authConfig cfg.timeout (checkRefOf cfg image)
        env.verifyEnv cache).2.2 := by
  unfold checkImageExists
  rcases hv : verifyManifest cfg.authConfig cfg.timeout (checkRefOf cfg image)
      env.verifyEnv cache with ⟨r, c, e⟩
  rcases r with m | b <;> simp [hv]

/-- The (sequentialized) batch runner returns one result per input, in
order, each tagged with its input string. -/
theorem runChecks_images (cfg : ClientConfig) (env : BatchEnv) (l : List Str)
    (cache : TokenCache) :
    ((runChecks cfg env l cache).1).map (·.image) = l := by
  induction l generalizing cache with
  | nil => simp [runChecks]
  | cons img rest ih =>
    unfold runChecks
    rcases hc : checkImageExists cfg img (env.perImage img) cache with ⟨r, c1, e1⟩
    rcases hr : runChecks cfg env rest c1 with ⟨rs, c2, e2⟩
    have himg : r.image = img := by
      have := checkImageExists_image cfg img (env.perImage img) cache
      rw [hc] at this
      simpa using this
    have hrest := ih c1
    rw [hr] at hrest
    simp only at hrest
    simp [hc, hr, himg, hrest]

/-- The batch runner records exactly one `existenceCheck` event per input
image, in order. -/
theorem runChecks_checkEvents (cfg : ClientConfig) (env : BatchEnv) (l : List Str)
    (cache : TokenCache) :
    ((runChecks cfg env l cache).2.2).filter isExistenceCheckEv =
      l.map Event.existenceCheck := by
  induction l generalizing cache with
  | nil => simp [runChecks]
  | cons img rest ih =>
    unfold runChecks
    rcases hc : checkImageExists cfg img (env.perImage img) cache with ⟨r, c1, e1⟩
    rcases hr : runChecks cfg env rest c1 with ⟨rs, c2, e2⟩
    have h1 : e1.filter isExistenceCheckEv = [] := by
      have hev := checkImageExists_events cfg img (env.perImage img) cache
      rw [hc] at hev
      simp only at hev
      rw [hev]
      exact verifyManifest_no_checkEv cfg.authConfig cfg.timeout
        (checkRefOf cfg img) (env.perImage img).verifyEnv cache
    have h2 : e2.filter isExistenceCheckEv = rest.map Event.existenceCheck := by
      have := ih c1
      rw [hr] at this
      simpa using this
    simp [hc, hr, List.filter_append, h1, h2, isExistenceCheckEv]

/-- Every result produced by the batch runner satisfies the
no-exists-with-error invariant. -/
theorem runChecks_inv (cfg : ClientConfig) (env : BatchEnv) (l : List Str)
    (cache : TokenCache) :
    ∀ r ∈ (runChecks cfg env l cache).1, (r.existsB && r.error.isSome) = false := by
  induction l generalizing cache with
  | nil => simp [runChecks]
  | cons img rest ih =>
    unfold runChecks
    rcases hc : checkImageExists cfg img (env.perImage img) cache with ⟨r, c1, e1⟩
    rcases hr : runChecks cfg env rest c1 with ⟨rs, c2, e2⟩
    intro x hx
    simp only [hc, hr, List.mem_cons] at hx
    rcases hx with rfl | hx
    · have := checkImageExists_inv cfg img (env.perImage img) cache
      rw [hc] at this
      simpa using this
    · have := ih c1
      rw [hr] at this
      exact this x hx

/-- A connectivity probe issues exactly one probe request. -/
theorem testRegistryConnectivity_events (registry : Str) (env : ConnEnv) :
    (testRegistryConnectivity registry env).2 = [Event.connectivityProbe registry] := by
  unfold testRegistryConnectivity
  rcases env.outcome with e | resp
  · rcases e with _ | m | m <;> rfl
  · by_cases h : (resp.status = 200 || resp.status = 401) = true <;> simp [h]

/-- A failed source-connectivity pre-flight makes `cloneImage` fail with the
described message after a single probe — no manifest fetch and no push. -/
theorem cloneImage_sourceFail (cfg : ClientConfig) (src tgt : Str) (env : CloneEnv)
    (cache : TokenCache)
    (hsc : (testRegistryConnectivity (parseImageReference src).registry
      env.sourceConn).1.success = false) :
    cloneImage cfg src tgt env cache =
      ({ success := false
         error := some (cannotConnectMsg (str "source")
           (parseImageReference src).registry
           (testRegistryConnectivity (parseImageReference src).registry
             env.sourceConn).1.error) },
        cache, [Event.connectivityProbe (parseImageReference src).registry]) := by
  unfold cloneImage
  rcases hres : testRegistryConnectivity (parseImageReference src).registry
      env.sourceConn with ⟨sc, evS⟩
  rw [hres] at hsc
  simp only at hsc
  have hev := testRegistryConnectivity_events (parseImageReference src).registry
    env.sourceConn
  rw [hres] at hev
  simp only at hev
  simp [hres, hsc, hev]

/-- A failed target-connectivity pre-flight (after a successful source
probe) makes `cloneImage` fail with the described message after the two
probes — no manifest fetch and no push. -/
theorem cloneImage_targetFail (cfg : ClientConfig) (src tgt : Str) (env : CloneEnv)
    (cache : TokenCache)
    (hsc : (testRegistryConnectivity (parseImageReference src).registry
      env.sourceConn).1.success = true)
    (htc : (testRegistryConnectivity
      (parseImageReference (buildTargetImage tgt (parseImageReference src))).registry
      env.targetConn).1.success = false) :
    cloneImage cfg src tgt env cache =
      ({ success := false
         error := some (cannotConnectMsg (str "target")
           (parseImageReference (buildTargetImage tgt (parseImageReference src))).registry
           (testRegistryConnectivity
             (parseImageReference (buildTargetImage tgt (parseImageReference src))).registry
             env.targetConn).1.error) },
        cache,
        [Event.connectivityProbe (parseImageReference src).registry,
         Event.connectivityProbe
           (parseImageReference (buildTargetImage tgt (parseImageReference src))).registry]) := by
  unfold cloneImage
  rcases hres : testRegistryConnectivity (parseImageReference src).registry
      env.sourceConn with ⟨sc, evS⟩
  rw [hres] at hsc
  simp only at hsc
  have hevS := testRegistryConnectivity_events (parseImageReference src).registry
    env.sourceConn
  rw [hres] at hevS
  simp only at hevS
  rcases hrtc : testRegistryConnectivity
      (parseImageReference (buildTargetImage tgt (parseImageReference src))).registry
      env.targetConn with ⟨tc, evT⟩
  rw [hrtc] at htc
  simp only at htc
  have hevT := testRegistryConnectivity_events
    (parseImageReference (buildTargetImage tgt (parseImageReference src))).registry
    env.targetConn
  rw [hrtc] at hevT
  simp only at hevT
  simp [hres, hrtc, hsc, htc, hevS, hevT]

/-- The declared-or-default content type used by `pushManifest`. -/
def contentTypeOf (obj : JsonVal) : Str :=
  match obj.mediaType with
  | some m => if !m.isEmpty then m else defaultManifestType
  | none => defaultManifestType

/-- Whenever the manifest body parses, `pushManifest` issues a `PUT` of that
exact body with the declared-or-default content type. -/
theorem pushManifest_put_event (authConfig : RegistryAuthConfig) (timeout : Nat)
    (jsonParse : Str → Except Str JsonVal) (imageRef : ImageReference)
    (manifest : Str) (env : PushEnv) (cache : TokenCache) (obj : JsonVal)
    (hjson : jsonParse manifest = .ok obj) :
    ∃ auth, Event.manifestPut imageRef.registry imageRef.repository
        (jsRefOf imageRef) (contentTypeOf obj) manifest auth ∈
      (pushManifest authConfig timeout jsonParse imageRef manifest env cache).2.2 := by
  unfold pushManifest
  rw [hjson]
  simp only [contentTypeOf]
  rcases hp1 : env.put1 with e | resp1
  · exact ⟨none, by simp⟩
  · by_cases h401 : resp1.status = 401
    · rcases hw : resp1.wwwAuthenticate with _ | hdr
      · exact ⟨none, by simp [h401, hw]⟩
      · simp only [h401, if_pos, hw]
        rcases hgt : getToken authConfig imageRef hdr env.tokenEnv cache with
          ⟨tok, cache1, tokEvs⟩
        by_cases ht : jsTruthy tok = true
        · rcases hp2 : env.put2 (tok.getD []) with e2 | resp2 <;>
            exact ⟨none, by simp [hgt, ht, hp2]⟩
        · exact ⟨none, by simp [hgt, ht]⟩
    · exact ⟨none, by simp [h401]⟩

/-- The clone runner returns one outcome per missing image, tagged with the
image string, in order. -/
theorem runClones_images (cfg : ClientConfig) (env : Str → CloneEnv) (target : Str)
    (missing : List ImageValidationResult) (cache : TokenCache) :
    ((runClones cfg env target missing cache).1).map (·.image) =
      missing.map (·.image) := by
  induction missing generalizing cache with
  | nil => simp [runClones]
  | cons m rest ih =>
    unfold runClones
    rcases hc : cloneImage cfg m.image target (env m.image) cache with ⟨o, c1, e1⟩
    rcases hr : runClones cfg env target rest c1 with ⟨os, c2, e2⟩
    have hrest := ih c1
    rw [hr] at hrest
    simp only at hrest
    simp [hc, hr, hrest]

/-- Both pre-flight probes reachable, manifest fetched (nonempty) and push
accepted: the clone succeeds, and the pushed document is the exact fetched
body with its declared-or-default media type. -/
theorem cloneImage_success (cfg : ClientConfig) (src tgt : Str) (env : CloneEnv)
    (cache : TokenCache) (manifest : Str) (obj : JsonVal)
    (hsc : (testRegistryConnectivity (parseImageReference src).registry
      env.sourceConn).1.success = true)
    (htc : (testRegistryConnectivity
      (parseImageReference (buildTargetImage tgt (parseImageReference src))).registry
      env.targetConn).1.success = true)
    (hget : (getManifest cfg.authConfig cfg.timeout (parseImageReference src)
      env.getEnv cache).1 = .ok manifest)
    (hm : manifest.isEmpty = false)
    (hjson : env.jsonParse manifest = .ok obj)
    (hpush : (pushManifest cfg.authConfig cfg.timeout env.jsonParse
      (parseImageReference (buildTargetImage tgt (parseImageReference src))) manifest
      env.pushEnv
      (getManifest cfg.authConfig cfg.timeout (parseImageReference src)
        env.getEnv cache).2.1).1 = .ok ()) :
    (cloneImage cfg src tgt env cache).1 = { success := true, error := none } ∧
      ∃ auth,
        Event.manifestPut
          (parseImageReference (buildTargetImage tgt (parseImageReference src))).registry
          (parseImageReference (buildTargetImage tgt (parseImageReference src))).repository
          (jsRefOf (parseImageReference (buildTargetImage tgt (parseImageReference src))))
          (contentTypeOf obj) manifest auth ∈ (cloneImage cfg src tgt env cache).2.2 := by
  unfold cloneImage
  rcases hres : testRegistryConnectivity (parseImageReference src).registry
      env.sourceConn with ⟨sc, evS⟩
  rw [hres] at hsc
  simp only at hsc
  rcases hrtc : testRegistryConnectivity
      (parseImageReference (buildTargetImage tgt (parseImageReference src))).registry
      env.targetConn with ⟨tc, evT⟩
  rw [hrtc] at htc
  simp only at htc
  rcases hgm : getManifest cfg.authConfig cfg.timeout (parseImageReference src)
      env.getEnv cache with ⟨gres, c1, evG⟩
  rw [hgm] at hget hpush
  simp only at hget hpush
  subst hget
  rcases hpm : pushManifest cfg.authConfig cfg.timeout env.jsonParse
      (parseImageReference (buildTargetImage tgt (parseImageReference src))) manifest
      env.pushEnv c1 with ⟨pres, c2, evP⟩
  rw [hpm] at hpush
  simp only at hpush
  have hput := pushManifest_put_event cfg.authConfig cfg.timeout env.jsonParse
    (parseImageReference (buildTargetImage tgt (parseImageReference src))) manifest
    env.pushEnv c1 obj hjson
  rw [hpm] at hput
  simp only at hput
  rcases hput with ⟨auth, hauth⟩
  rcases pres with m | u
  · exact absurd hpush (by simp)
  · refine ⟨?_, auth, ?_⟩
    · simp [hres, hrtc, hsc, htc, hgm, hm, hpm]
    · simp [hres, hrtc, hsc, htc, hgm, hm, hpm, hauth]

/-- Characterization of the validation stage when no target registry is
configured and some image is missing: the verdict is the aggregated denial
built from the missing results. -/
theorem validationStage_denyNoTarget (cfg : ClientConfig) (env : HandlerEnv)
    (uid : Str) (images : List Str) (cache : TokenCache)
    (htarget : jsTruthy cfg.targetRegistry = false)
    (hmiss : ((checkImages cfg env.batch images cache).1.filter
      fun r => !r.existsB) ≠ []) :
    (validationStage cfg env uid images cache).1 =
      .ok (createDeniedResponse uid (formatValidationError
        ((checkImages cfg env.batch images cache).1.filter fun r => !r.existsB))) := by
  unfold validationStage
  rcases hci : checkImages cfg env.batch images cache with ⟨results, cache1, evs1⟩
  rw [hci] at hmiss
  simp only at hmiss
  have hlen : (results.filter fun r => !r.existsB).length > 0 :=
    List.length_pos.mpr hmiss
  simp [htarget, hlen, List.length_pos.mpr hmiss]

/-- Characterization of the validation stage when a (truthy) target registry
is configured and some image is missing: every missing image is cloned; the
verdict denies with the aggregated clone-failure message when any clone
failed and allows otherwise. -/
theorem validationStage_clonePath (cfg : ClientConfig) (env : HandlerEnv)
    (uid : Str) (images : List Str) (cache : TokenCache)
    (htarget : jsTruthy cfg.targetRegistry = true)
    (hmiss : ((checkImages cfg env.batch images cache).1.filter
      fun r => !r.existsB) ≠ []) :
    (validationStage cfg env uid images cache).1 =
      (if ((runClones cfg env.clonePerImage (cfg.targetRegistry.getD [])
            ((checkImages cfg env.batch images cache).1.filter fun r => !r.existsB)
            (checkImages cfg env.batch images cache).2.1).1.filter
            fun r => !r.success) ≠ [] then
        .ok (createDeniedResponse uid (cloneFailMessage
          ((runClones cfg env.clonePerImage (cfg.targetRegistry.getD [])
            ((checkImages cfg env.batch images cache).1.filter fun r => !r.existsB)
            (checkImages cfg env.batch images cache).2.1).1.filter
            fun r => !r.success)))
      else
        .ok (createAllowedResponse uid
          (formatValidationWarnings (checkImages cfg env.batch images cache).1))) := by
  unfold validationStage
  rcases hci : checkImages cfg env.batch images cache with ⟨results, cache1, evs1⟩
  rw [hci] at hmiss
  simp only at hmiss ⊢
  have hlen : (results.filter fun r => !r.existsB).length > 0 :=
    List.length_pos.mpr hmiss
  rcases hrc : runClones cfg env.clonePerImage (cfg.targetRegistry.getD [])
      (results.filter fun r => !r.existsB) cache1 with ⟨cloneResults, cache2, evs2⟩
  by_cases hf : (cloneResults.filter fun r => !r.success) = []
  · simp [htarget, hlen, hrc, hf]
  · have hflen : (cloneResults.filter fun r => !r.success).length > 0 :=
      List.length_pos.mpr hf
    simp [htarget, hlen, hrc, hf, hflen]

/-- Characterization of the validation stage when every image exists. -/
theorem validationStage_allExist (cfg : ClientConfig) (env : HandlerEnv)
    (uid : Str) (images : List Str) (cache : TokenCache)
    (hnone : ((checkImages cfg env.batch images cache).1.filter
      fun r => !r.existsB) = []) :
    (validationStage cfg env uid images cache).1 =
      .ok (createAllowedResponse uid
        (formatValidationWarnings (checkImages cfg env.batch images cache).1)) := by
  unfold validationStage
  rcases hci : checkImages cfg env.batch images cache with ⟨results, cache1, evs1⟩
  rw [hci] at hnone
  simp only at hnone
  simp [hnone]

/-- A request that reaches the validation stage (well-formed kind, no
subresource, CREATE or UPDATE, at least one extracted image). -/
theorem handleAdmissionReview_validation (cfg : ClientConfig) (env : HandlerEnv)
    (req : AdmissionRequest) (cache : TokenCache) (kindStr : Str)
    (hk : req.kindObj = some kindStr)
    (hsub : jsTruthy req.subResource = false)
    (hop : req.operation = str "CREATE" ∨ req.operation = str "UPDATE")
    (himgs : extractImagesFromObject kindStr req.objectSpec ≠ []) :
    handleAdmissionReview cfg env req cache =
      validationStage cfg env req.uid
        (extractImagesFromObject kindStr req.objectSpec) cache := by
  unfold handleAdmissionReview
  rw [hk]
  have hopb : (decide (req.operation ≠ str "CREATE") &&
      decide (req.operation ≠ str "UPDATE")) = false := by
    rcases hop with h | h <;> simp [h]
  have hlen : (extractImagesFromObject kindStr req.objectSpec).length ≠ 0 := by
    simpa using himgs
  simp [hsub, hopb, hlen]
  intro h1 h2
  rcases hop with h | h
  · exact absurd h h1
  · exact absurd h h2

/-- The empty needle occurs in every string. -/
theorem segIn_nil (l : Str) : segIn ([] : Str) l = true := by
  cases l <;> rfl

/-- Any explicit decomposition witnesses occurrence. -/
theorem segIn_of_decomp_any (x l s t : Str) (h : l = s ++ x ++ t) :
    segIn x l = true := by
  rcases hx : x with _ | ⟨c, cs⟩
  · exact segIn_nil l
  · exact segIn_of_decomp (c :: cs) l s t (by rw [← hx, h]) (by simp)

/-- Results all satisfying the no-exists-with-error invariant produce no
validation warnings. -/
theorem formatValidationWarnings_none (results : List ImageValidationResult)
    (hinv : ∀ r ∈ results, (r.existsB && r.error.isSome) = false) :
    formatValidationWarnings results = none := by
  have hnil : warningsListOf results = [] := by
    unfold warningsListOf
    rw [List.filterMap_eq_nil_iff]
    intro r hr
    have hi := hinv r hr
    by_cases he : r.existsB = true
    · have hsome : r.error.isSome = false := by simpa [he] using hi
      have hnone : r.error = none := by
        cases hh : r.error with
        | none => rfl
        | some v => rw [hh] at hsome; simp at hsome
      simp [he, hnone, jsTruthy]
    · simp [Bool.eq_false_iff.mpr he]
  simp [formatValidationWarnings, hnil]

/-- Every successful validation-stage verdict carries the request uid. -/
theorem validationStage_uid (cfg : ClientConfig) (env : HandlerEnv) (uid : Str)
    (images : List Str) (cache : TokenCache) (resp : AdmissionReviewResponse)
    (h : (validationStage cfg env uid images cache).1 = .ok resp) :
    resp.response.uid = uid := by
  by_cases hmiss : ((checkImages cfg env.batch images cache).1.filter
      fun r => !r.existsB) = []
  · rw [validationStage_allExist cfg env uid images cache hmiss] at h
    simp only [Except.ok.injEq] at h
    subst h
    rfl
  · by_cases htarget : jsTruthy cfg.targetRegistry = true
    · rw [validationStage_clonePath cfg env uid images cache htarget hmiss] at h
      by_cases hf : ((runClones cfg env.clonePerImage (cfg.targetRegistry.getD [])
          ((checkImages cfg env.batch images cache).1.filter fun r => !r.existsB)
          (checkImages cfg env.batch images cache).2.1).1.filter
          fun r => !r.success) ≠ []
      · rw [if_pos hf] at h
        simp only [Except.ok.injEq] at h
        subst h
        rfl
      · rw [if_neg hf] at h
        simp only [Except.ok.injEq] at h
        subst h
        rfl
    · rw [validationStage_denyNoTarget cfg env uid images cache
        (by simpa using htarget) hmiss] at h
      simp only [Except.ok.injEq] at h
      subst h
      rfl

/-- Every successful validation-stage verdict carries no warnings: the allow
branches attach `formatValidationWarnings` of batch results, which the
result invariant empties, and denial attaches none. -/
theorem validationStage_warnings (cfg : ClientConfig) (env : HandlerEnv) (uid : Str)
    (images : List Str) (cache : TokenCache) (resp : AdmissionReviewResponse)
    (h : (validationStage cfg env uid images cache).1 = .ok resp) :
    resp.response.warnings = none := by
  have hw : formatValidationWarnings (checkImages cfg env.batch images cache).1 = none := by
    apply formatValidationWarnings_none
    exact runChecks_inv cfg env.batch (dedupFirstSeen images) cache
  by_cases hmiss : ((checkImages cfg env.batch images cache).1.filter
      fun r => !r.existsB) = []
  · rw [validationStage_allExist cfg env uid images cache hmiss] at h
    simp only [Except.ok.injEq] at h
    subst h
    simp [createAllowedResponse, hw]
  · by_cases htarget : jsTruthy cfg.targetRegistry = true
    · rw [validationStage_clonePath cfg env uid images cache htarget hmiss] at h
      by_cases hf : ((runClones cfg env.clonePerImage (cfg.targetRegistry.getD [])
          ((checkImages cfg env.batch images cache).1.filter fun r => !r.existsB)
          (checkImages cfg env.batch images cache).2.1).1.filter
          fun r => !r.success) ≠ []
      · rw [if_pos hf] at h
        simp only [Except.ok.injEq] at h
        subst h
        rfl
      · rw [if_neg hf] at h
        simp only [Except.ok.injEq] at h
        subst h
        simp [createAllowedResponse, hw]
    · rw [validationStage_denyNoTarget cfg env uid images cache
        (by simpa using htarget) hmiss] at h
      simp only [Except.ok.injEq] at h
      subst h
      rfl

/-- Every successful engine verdict carries the request uid. -/
theorem handleAdmissionReview_ok_uid (cfg : ClientConfig) (env : HandlerEnv)
    (req : AdmissionRequest) (cache : TokenCache) (resp : AdmissionReviewResponse)
    (h : (handleAdmissionReview cfg env req cache).1 = .ok resp) :
    resp.response.uid = req.uid := by
  unfold handleAdmissionReview at h
  rcases hk : req.kindObj with _ | kindStr
  · rw [hk] at h
    simp at h
  · rw [hk] at h
    by_cases hsub : jsTruthy req.subResource = true
    · simp only [hsub, if_true, Except.ok.injEq] at h
      subst h
      rfl
    · simp only [Bool.eq_false_iff.mp (by simpa using hsub), Bool.false_eq_true,
        if_false] at h
      by_cases hop : (decide (req.operation ≠ str "CREATE") &&
          decide (req.operation ≠ str "UPDATE")) = true
      · rw [if_pos hop] at h
        simp only [Except.ok.injEq] at h
        subst h
        rfl
      · rw [if_neg (by simpa using hop)] at h
        by_cases hlen : (extractImagesFromObject kindStr req.objectSpec).length = 0
        · rw [if_pos hlen] at h
          simp only [Except.ok.injEq] at h
          subst h
          rfl
        · rw [if_neg hlen] at h
          exact validationStage_uid cfg env req.uid _ cache resp h

/-- Every successful engine verdict carries no warnings. -/
theorem handleAdmissionReview_ok_warnings (cfg : ClientConfig) (env : HandlerEnv)
    (req : AdmissionRequest) (cache : TokenCache) (resp : AdmissionReviewResponse)
    (h : (handleAdmissionReview cfg env req cache).1 = .ok resp) :
    resp.response.warnings = none := by
  unfold handleAdmissionReview at h
  rcases hk : req.kindObj with _ | kindStr
  · rw [hk] at h
    simp at h
  · rw [hk] at h
    by_cases hsub : jsTruthy req.subResource = true
    · simp only [hsub, if_true, Except.ok.injEq] at h
      subst h
      rfl
    · simp only [Bool.eq_false_iff.mp (by simpa using hsub), Bool.false_eq_true,
        if_false] at h
      by_cases hop : (decide (req.operation ≠ str "CREATE") &&
          decide (req.operation ≠ str "UPDATE")) = true
      · rw [if_pos hop] at h
        simp only [Except.ok.injEq] at h
        subst h
        rfl
      · rw [if_neg (by simpa using hop)] at h
        by_cases hlen : (extractImagesFromObject kindStr req.objectSpec).length = 0
        · rw [if_pos hlen] at h
          simp only [Except.ok.injEq] at h
          subst h
          rfl
        · rw [if_neg hlen] at h
          exact validationStage_warnings cfg env req.uid _ cache resp h

/-- A bare single-segment name parses to the canonical Docker Hub host with
the `library/` namespace. -/
theorem parseImageReference_bare (name : Str)
    (h1 : '@' ∉ name) (h2 : ':' ∉ name) (h3 : '/' ∉ name) :
    parseImageReference name =
      { registry := str "registry-1.docker.io"
        repository := str "library/" ++ name
        tag := str "latest", digest := none, fullImage := name } := by
  unfold parseImageReference
  simp [hasChar_eq_false '@' name h1, hasChar_eq_false ':' name h2,
    hasChar_eq_false '/' name h3, defaultRegistriesLookup]

/-- The `docker.io/` alias of a single-segment name parses identically
(up to the recorded original string). -/
theorem parseImageReference_dockerio (name : Str)
    (h1 : '@' ∉ name) (h2 : ':' ∉ name) (h3 : '/' ∉ name) :
    parseImageReference (str "docker.io/" ++ name) =
      { registry := str "registry-1.docker.io"
        repository := str "library/" ++ name
        tag := str "latest", digest := none
        fullImage := str "docker.io/" ++ name } := by
  have ha : hasChar '@' (str "docker.io/" ++ name) = false := by
    rw [hasChar_append, hasChar_eq_false '@' name h1]
    decide
  have hc : hasChar ':' (str "docker.io/" ++ name) = false := by
    rw [hasChar_append, hasChar_eq_false ':' name h2]
    decide
  have hs : hasChar '/' (str "docker.io/" ++ name) = true := by
    rw [hasChar_append]
    have : hasChar '/' (str "docker.io/") = true := by decide
    simp [this]
  have heq : str "docker.io/" ++ name = str "docker.io" ++ '/' :: name := rfl
  have hsplit : splitAll '/' (str "docker.io/" ++ name) = [str "docker.io", name] := by
    rw [heq, splitAll_sep_head '/' (str "docker.io") name (by decide),
      splitAll_no_occurrence '/' name h3]
  unfold parseImageReference
  simp [ha, hc, hs, hsplit, hasChar_eq_false '/' name h3,
    defaultRegistriesLookup, joinSep,
    show hasChar '.' (str "docker.io") = true from by decide]

/-- A needle sitting inside one mapped element occurs in the joined,
prefixed message. -/
theorem segIn_in_message (x h sep : Str) (f : α → Str) (r : α) (l : List α)
    (hr : r ∈ l) (a b : Str) (hf : f r = a ++ x ++ b) :
    segIn x (h ++ joinSep sep (l.map f)) = true := by
  obtain ⟨s, t, hst⟩ := joinSep_mem_decomp sep f r l hr
  apply segIn_of_decomp_any x _ (h ++ s ++ a) (b ++ t)
  rw [hst, hf]
  simp [List.append_assoc]

/-- Each missing image's string, registry, and (when truthy) error text all
occur in the aggregated denial message. -/
theorem formatValidationError_parts (missing : List ImageValidationResult)
    (r : ImageValidationResult) (hr : r ∈ missing) :
    segIn r.image (formatValidationError missing) = true ∧
    segIn r.registry (formatValidationError missing) = true ∧
    (jsTruthy r.error = true →
      segIn (interpOpt r.error) (formatValidationError missing) = true) := by
  unfold formatValidationError
  refine ⟨?_, ?_, fun htr => ?_⟩
  · exact segIn_in_message r.image _ _ missingLine r missing hr (str "  - ")
      (str " in " ++ r.registry ++
        (if jsTruthy r.error then str " (" ++ interpOpt r.error ++ str ")" else []))
      (by simp [missingLine])
  · exact segIn_in_message r.registry _ _ missingLine r missing hr
      (str "  - " ++ r.image ++ str " in ")
      (if jsTruthy r.error then str " (" ++ interpOpt r.error ++ str ")" else [])
      (by simp [missingLine])
  · exact segIn_in_message (interpOpt r.error) _ _ missingLine r missing hr
      (str "  - " ++ r.image ++ str " in " ++ r.registry ++ str " (") (str ")")
      (by simp [missingLine, htr])

/-- Each failed clone's image string and error text occur in the aggregated
clone-failure message. -/
theorem cloneFailMessage_parts (failed : List CloneResultWithImage)
    (r : CloneResultWithImage) (hr : r ∈ failed) :
    segIn r.image (cloneFailMessage failed) = true ∧
    segIn (interpOpt r.error) (cloneFailMessage failed) = true := by
  unfold cloneFailMessage
  constructor
  · exact segIn_in_message r.image _ _ cloneFailLine r failed hr (str "  - ")
      (str ": " ++ interpOpt r.error) (by simp [cloneFailLine])
  · exact segIn_in_message (interpOpt r.error) _ _ cloneFailLine r failed hr
      (str "  - " ++ r.image ++ str ": ") [] (by simp [cloneFailLine])

/-! ## Default environments for concrete witnesses -/

def defaultHttpResp : HttpResp :=
  { status := 404, statusText := [], wwwAuthenticate := none, bodyText := [] }

def defaultTokenEnv : TokenEnv := { nowCheck := 0, outcome := .error (), nowStore := 0 }

def defaultVerifyEnv : VerifyEnv :=
  { probe1 := .ok defaultHttpResp, tokenEnv := defaultTokenEnv
    probe2 := fun _ => .ok defaultHttpResp }

def defaultCheckEnv : CheckEnv := { verifyEnv := defaultVerifyEnv }

def defaultConnEnv : ConnEnv :=
  { outcome := .ok { status := 200, statusText := [], wwwAuthenticate := none
                     bodyText := [] } }

def defaultGetEnv : GetManifestEnv :=
  { get1 := .ok { status := 200, statusText := [], wwwAuthenticate := none
                  bodyText := str "{}" }
    tokenEnv := defaultTokenEnv
    get2 := fun _ => .ok defaultHttpResp }

def defaultPushEnv : PushEnv :=
  { put1 := .ok { status := 201, statusText := [], wwwAuthenticate := none
                  bodyText := [] }
    tokenEnv := defaultTokenEnv
    put2 := fun _ => .ok defaultHttpResp }

def defaultJsonParse : Str → Except Str JsonVal := fun _ => .ok { mediaType := none }

def defaultCloneEnv : CloneEnv :=
  { sourceConn := defaultConnEnv, targetConn := defaultConnEnv
    getEnv := defaultGetEnv, jsonParse := defaultJsonParse
    pushEnv := defaultPushEnv }

def defaultHandlerEnv : HandlerEnv :=
  { batch := { perImage := fun _ => defaultCheckEnv }
    clonePerImage := fun _ => defaultCloneEnv }

def defaultAuthConfig : RegistryAuthConfig :=
  { credentials := [], defaultCredentials := none }

def defaultCfg : ClientConfig :=
  { authConfig := defaultAuthConfig, targetRegistry := none
    timeout := 240000, insecureRegistries := [] }

/-! ## Claims -/

/-- C1: the admission decision engine never lets an exception escape its
boundary: whenever `handleAdmissionReview` ends in an internal failure (for
example the malformed-kind `TypeError`), the webhook boundary converts it
into an HTTP-200 response whose decision is `allowed=true` with a warning
describing the failure — never a deny and never a propagated exception
(`webhookValidate` is a total function in this model, mirroring the
boundary `catch`). -/
theorem claim_C1_fail_open (cfg : ClientConfig) (env : HandlerEnv)
    (req : AdmissionRequest) (cache : TokenCache) (msg : Str)
    (huid : req.uid.isEmpty = false)
    (herr : (handleAdmissionReview cfg env req cache).1 = .error msg) :
    ∃ cache1 evs,
      webhookValidate cfg env (.parsed (some req)) cache =
        (.json 200 (failOpenResponse msg), cache1, evs) ∧
      (failOpenResponse msg).response.allowed = true ∧
      (failOpenResponse msg).response.warnings =
        some [str "Webhook error: " ++ msg] := by
  unfold webhookValidate
  rcases hh : handleAdmissionReview cfg env req cache with ⟨r, c1, evs⟩
  rw [hh] at herr
  simp only at herr
  subst herr
  exact ⟨c1, evs, by simp [huid, hh], rfl, rfl⟩

/-- A concrete malformed request (no `kind` object) whose processing throws. -/
def reqC1 : AdmissionRequest :=
  { uid := str "abc", kindObj := none, objectSpec := none
    operation := str "CREATE", subResource := none }

/-- Witness for C1: the malformed-kind request is answered fail-open. -/
theorem claim_C1_fail_open_witness :
    ∃ cache1 evs,
      webhookValidate defaultCfg defaultHandlerEnv (.parsed (some reqC1)) [] =
        (.json 200 (failOpenResponse typeErrKindMsg), cache1, evs) ∧
      (failOpenResponse typeErrKindMsg).response.allowed = true ∧
      (failOpenResponse typeErrKindMsg).response.warnings =
        some [str "Webhook error: " ++ typeErrKindMsg] :=
  claim_C1_fail_open defaultCfg defaultHandlerEnv reqC1 [] typeErrKindMsg
    (by decide) rfl

/-- C2: fail-closed on unverifiable images.  (1) Whenever the inner probe of
`checkImageExists` ends in an error outcome, the result is `exists=false`
with the error recorded.  (2) In the engine, a request that reaches
validation and has any non-existing result is never answered by the plain
all-exist allow: without a target registry the verdict is a deny, and with a
target registry a clone is attempted for exactly that image. -/
theorem claim_C2_fail_closed :
    (∀ (cfg : ClientConfig) (image : Str) (env : CheckEnv) (cache : TokenCache)
        (m : Str),
      (verifyManifest cfg.authConfig cfg.timeout (checkRefOf cfg image)
        env.verifyEnv cache).1 = .error m →
      (checkImageExists cfg image env cache).1.existsB = false ∧
      (checkImageExists cfg image env cache).1.error = some m) ∧
    (∀ (cfg : ClientConfig) (env : HandlerEnv) (req : AdmissionRequest)
        (cache : TokenCache) (kindStr : Str) (r : ImageValidationResult),
      req.kindObj = some kindStr →
      jsTruthy req.subResource = false →
      (req.operation = str "CREATE" ∨ req.operation = str "UPDATE") →
      extractImagesFromObject kindStr req.objectSpec ≠ [] →
      r ∈ (checkImages cfg env.batch
        (extractImagesFromObject kindStr req.objectSpec) cache).1 →
      r.existsB = false →
      (jsTruthy cfg.targetRegistry = false →
        ∃ resp, (handleAdmissionReview cfg env req cache).1 = .ok resp ∧
          resp.response.allowed = false) ∧
      (jsTruthy cfg.targetRegistry = true →
        ∃ c ∈ (runClones cfg env.clonePerImage (cfg.targetRegistry.getD [])
            ((checkImages cfg env.batch
              (extractImagesFromObject kindStr req.objectSpec) cache).1.filter
              fun x => !x.existsB)
            (checkImages cfg env.batch
              (extractImagesFromObject kindStr req.objectSpec) cache).2.1).1,
          c.image = r.image)) := by
  constructor
  · intro cfg image env cache m h
    have := checkImageExists_error cfg image env cache m h
    exact ⟨by rw [this], by rw [this]⟩
  · intro cfg env req cache kindStr r hk hsub hop himgs hmem hexists
    have hmiss : r ∈ ((checkImages cfg env.batch
        (extractImagesFromObject kindStr req.objectSpec) cache).1.filter
        fun x => !x.existsB) :=
      List.mem_filter.mpr ⟨hmem, by simp [hexists]⟩
    have hne : ((checkImages cfg env.batch
        (extractImagesFromObject kindStr req.objectSpec) cache).1.filter
        fun x => !x.existsB) ≠ [] := by
      intro hcon
      rw [hcon] at hmiss
      cases hmiss
    have hval := handleAdmissionReview_validation cfg env req cache kindStr
      hk hsub hop himgs
    constructor
    · intro htarget
      refine ⟨createDeniedResponse req.uid (formatValidationError
        ((checkImages cfg env.batch
          (extractImagesFromObject kindStr req.objectSpec) cache).1.filter
          fun x => !x.existsB)), ?_, rfl⟩
      rw [hval]
      exact validationStage_denyNoTarget cfg env req.uid _ cache htarget hne
    · intro htarget
      have hmap := runClones_images cfg env.clonePerImage (cfg.targetRegistry.getD [])
        ((checkImages cfg env.batch
          (extractImagesFromObject kindStr req.objectSpec) cache).1.filter
          fun x => !x.existsB)
        (checkImages cfg env.batch
          (extractImagesFromObject kindStr req.objectSpec) cache).2.1
      have : r.image ∈ ((runClones cfg env.clonePerImage (cfg.targetRegistry.getD [])
          ((checkImages cfg env.batch
            (extractImagesFromObject kindStr req.objectSpec) cache).1.filter
            fun x => !x.existsB)
          (checkImages cfg env.batch
            (extractImagesFromObject kindStr req.objectSpec) cache).2.1).1).map
          (·.image) := by
        rw [hmap]
        exact List.mem_map_of_mem _ hmiss
      rcases List.mem_map.mp this with ⟨c, hc, hci⟩
      exact ⟨c, hc, hci⟩

/-- Environment whose first probe times out. -/
def envAbortC2 : CheckEnv :=
  { verifyEnv := { probe1 := .error .abort, tokenEnv := defaultTokenEnv
                   probe2 := fun _ => .ok defaultHttpResp } }

/-- The timeout message produced for the default-registry probe. -/
def abortMsgC2 : Str :=
  transportErrorMessage (str "registry-1.docker.io") 240000 .abort

/-- Witness for C2: a timed-out probe yields `exists=false` with the timeout
message recorded. -/
theorem claim_C2_fail_closed_witness :
    (checkImageExists defaultCfg (str "nginx") envAbortC2 []).1.existsB = false ∧
    (checkImageExists defaultCfg (str "nginx") envAbortC2 []).1.error =
      some abortMsgC2 :=
  claim_C2_fail_closed.1 defaultCfg (str "nginx") envAbortC2 [] abortMsgC2 rfl

/-- A well-formed request whose engine processing throws (no `kind`). -/
def reqC3 : AdmissionRequest :=
  { uid := str "abc", kindObj := none, objectSpec := none
    operation := str "CREATE", subResource := none }

/-- C3 counterexample: on the fail-open error path the response uid is the
empty string, not the request's uid — refuting "the uid of the returned
admission response equals the uid of the request on every path". -/
theorem claim_C3_counterexample :
    (webhookValidate defaultCfg defaultHandlerEnv (.parsed (some reqC3)) []).1 =
      .json 200 (failOpenResponse typeErrKindMsg) ∧
    (failOpenResponse typeErrKindMsg).response.uid ≠ reqC3.uid := by
  exact ⟨rfl, by decide⟩

/-- C3 (amended): every verdict produced by the decision engine itself
(skip, no-images allow, validated allow, deny, clone paths) echoes the
request uid; the outer fail-open error path instead answers with an empty
uid. -/
theorem claim_C3_uid_amended :
    (∀ (cfg : ClientConfig) (env : HandlerEnv) (req : AdmissionRequest)
        (cache : TokenCache) (resp : AdmissionReviewResponse),
      (handleAdmissionReview cfg env req cache).1 = .ok resp →
      resp.response.uid = req.uid) ∧
    (∀ (cfg : ClientConfig) (env : HandlerEnv) (req : AdmissionRequest)
        (cache : TokenCache) (msg : Str) (cache1 : TokenCache) (evs : List Event)
        (resp : AdmissionReviewResponse),
      (handleAdmissionReview cfg env req cache).1 = .error msg →
      webhookValidate cfg env (.parsed (some req)) cache =
        (.json 200 resp, cache1, evs) →
      resp.response.uid = []) := by
  constructor
  · exact fun cfg env req cache resp h =>
      handleAdmissionReview_ok_uid cfg env req cache resp h
  · intro cfg env req cache msg cache1 evs resp herr hweb
    unfold webhookValidate at hweb
    by_cases huid : req.uid.isEmpty = true
    · simp [huid] at hweb
    · rcases hh : handleAdmissionReview cfg env req cache with ⟨r, c1, e1⟩
      rw [hh] at herr
      simp only at herr
      subst herr
      simp only [huid, Bool.false_eq_true, if_false, hh, Prod.mk.injEq] at hweb
      rcases hweb with ⟨h1, h2, h3⟩
      cases h1
      rfl

/-- A skip-path request (subresource set). -/
def reqC3w : AdmissionRequest :=
  { uid := str "u", kindObj := some (str "Pod"), objectSpec := none
    operation := str "UPDATE", subResource := some (str "scale") }

/-- Witness for C3 (amended): the skip path echoes the request uid. -/
theorem claim_C3_uid_amended_witness :
    (createAllowedResponse (str "u") none).response.uid = reqC3w.uid :=
  claim_C3_uid_amended.1 defaultCfg defaultHandlerEnv reqC3w []
    (createAllowedResponse (str "u") none) rfl

/-- A 201 response to the probe (a "200-class" status that is not exactly
200). -/
def respC4 : HttpResp :=
  { status := 201, statusText := str "Created", wwwAuthenticate := none
    bodyText := [] }

def envC4 : CheckEnv :=
  { verifyEnv := { probe1 := .ok respC4, tokenEnv := defaultTokenEnv
                   probe2 := fun _ => .ok defaultHttpResp } }

/-- C4 counterexample: a 201 response — although in the 200 class — does not
mean "exists": the check classifies it as an error outcome
(`exists=false` with a status-error message), refuting "any 200-class
response means the image exists". -/
theorem claim_C4_counterexample :
    (checkImageExists defaultCfg (str "nginx") envC4 []).1.existsB = false ∧
    (checkImageExists defaultCfg (str "nginx") envC4 []).1.error.isSome = true := by
  exact ⟨rfl, rfl⟩

/-- C4 (amended): the probe classification is by exact status — precisely
200 means exists, precisely 404 means not-exists (a valid non-error
outcome), every other status yields the descriptive status-error outcome and
every transport failure the corresponding classified message; a thrown
verification error always surfaces through `checkImageExists` as an
`exists=false` result value (no exception crosses the public boundary, the
model function being total). -/
theorem claim_C4_amended :
    (∀ (ref : ImageReference) (reference : Str) (resp : HttpResp),
      (resp.status = 200 →
        classifyManifestResponse ref reference resp = .ok true) ∧
      (resp.status = 404 →
        classifyManifestResponse ref reference resp = .ok false) ∧
      (resp.status ≠ 200 → resp.status ≠ 404 →
        classifyManifestResponse ref reference resp =
          .error (statusErrorMessage ref reference resp))) ∧
    (∀ (authConfig : RegistryAuthConfig) (timeout : Nat) (imageRef : ImageReference)
        (env : VerifyEnv) (cache : TokenCache) (e : TransportError),
      env.probe1 = .error e →
      (verifyManifest authConfig timeout imageRef env cache).1 =
        .error (transportErrorMessage imageRef.registry timeout e)) ∧
    (∀ (cfg : ClientConfig) (image : Str) (env : CheckEnv) (cache : TokenCache)
        (m : Str),
      (verifyManifest cfg.authConfig cfg.timeout (checkRefOf cfg image)
        env.verifyEnv cache).1 = .error m →
      (checkImageExists cfg image env cache).1 =
        { image := image, existsB := false, error := some m
          registry := (checkRefOf cfg image).registry }) := by
  refine ⟨?_, ?_, ?_⟩
  · intro ref reference resp
    refine ⟨fun h200 => ?_, fun h404 => ?_, fun h200 h404 => ?_⟩
    · simp [classifyManifestResponse, h200]
    · have : resp.status ≠ 200 := by omega
      simp [classifyManifestResponse, this, h404]
    · simp [classifyManifestResponse, h200, h404]
  · exact verifyManifest_transport
  · exact checkImageExists_error

/-- A 503 response for the amended-C4 witness. -/
def respC4w : HttpResp :=
  { status := 503, statusText := str "Service Unavailable"
    wwwAuthenticate := none, bodyText := [] }

/-- Witness for C4 (amended): a 503 response is classified as the
status-error outcome. -/
theorem claim_C4_amended_witness :
    classifyManifestResponse (parseImageReference (str "nginx")) (str "latest")
      respC4w =
      .error (statusErrorMessage (parseImageReference (str "nginx"))
        (str "latest") respC4w) :=
  (claim_C4_amended.1 (parseImageReference (str "nginx")) (str "latest")
    respC4w).2.2 (by decide) (by decide)

/-- A token response whose `expires_in` is present but zero. -/
def tokenEnvC5 : TokenEnv :=
  { nowCheck := 0
    outcome := .ok { status := 200, statusText := []
                     json := .ok { token := some (str "tok"), access_token := none
                                   expires_in := some 0 } }
    nowStore := 0 }

def refC5 : ImageReference := parseImageReference (str "nginx")

def hdrC5 : Str :=
  str "Bearer realm=\"https://auth.example.com/token\",service=\"reg\""

/-- C5 counterexample: with `expires_in = 0` (present, not absent) the JS
falsy default kicks in and the stored expiry is `now + 300s − 30s`, not
`now + 0s − 30s` as the claim's formula ("defaulting to 300 when absent")
prescribes. -/
theorem claim_C5_counterexample :
    mapGet (getToken defaultAuthConfig refC5 hdrC5 tokenEnvC5 []).2.1
      (cacheKeyOf refC5) = some { token := str "tok", expiresAt := 270000 } ∧
    (270000 : Int) ≠ 0 + 0 * 1000 - 30000 := by
  exact ⟨rfl, by decide⟩

/-- C5 (amended): (1) with a valid cached token for the probed key, an
existence check issues no token request; (2) with an expired or absent
entry, a parseable challenge on a 401 probe issues a token request; (3) a
stored entry's expiry equals the acquisition time plus `expires_in` seconds
— defaulting to 300 when `expires_in` is absent or zero (JS falsy) — minus
the 30-second safety margin. -/
theorem claim_C5_token_cache :
    (∀ (cfg : ClientConfig) (image : Str) (env : CheckEnv) (cache : TokenCache)
        (entry : TokenEntry),
      mapGet cache (cacheKeyOf (checkRefOf cfg image)) = some entry →
      entry.expiresAt > env.verifyEnv.tokenEnv.nowCheck →
      ((checkImageExists cfg image env cache).2.2).filter isTokReqEv = []) ∧
    (∀ (authConfig : RegistryAuthConfig) (timeout : Nat)
        (imageRef : ImageReference) (env : VerifyEnv) (cache : TokenCache)
        (resp1 : HttpResp) (hdr : Str) (p : AuthParams),
      env.probe1 = .ok resp1 → resp1.status = 401 →
      resp1.wwwAuthenticate = some hdr →
      parseWwwAuthenticate hdr = some p →
      (∀ entry, mapGet cache (cacheKeyOf imageRef) = some entry →
        entry.expiresAt ≤ env.tokenEnv.nowCheck) →
      Event.tokenRequest p.realm p.service (buildScope imageRef.repository)
        (getCredentialsForRegistry authConfig imageRef.registry).isSome ∈
        (verifyManifest authConfig timeout imageRef env cache).2.2) ∧
    (∀ (authConfig : RegistryAuthConfig) (imageRef : ImageReference) (hdr : Str)
        (env : TokenEnv) (cache : TokenCache) (p : AuthParams),
      parseWwwAuthenticate hdr = some p →
      (∀ entry, mapGet cache (cacheKeyOf imageRef) = some entry →
        entry.expiresAt ≤ env.nowCheck) →
      ∀ (resp : TokenFetchResp) (data : TokenJson),
        env.outcome = .ok resp → respOk resp.status = true →
        resp.json = .ok data →
        jsTruthy (jsOrStr data.token data.access_token) = true →
        mapGet (getToken authConfig imageRef hdr env cache).2.1
            (cacheKeyOf imageRef) =
          some { token := (jsOrStr data.token data.access_token).getD []
                 expiresAt := env.nowStore +
                   jsOrNum data.expires_in 300 * 1000 - 30000 }) := by
  refine ⟨?_, ?_, ?_⟩
  · intro cfg image env cache entry hget hvalid
    rw [checkImageExists_events]
    exact verifyManifest_no_tokreq_of_hit cfg.authConfig cfg.timeout
      (checkRefOf cfg image) env.verifyEnv cache entry hget hvalid
  · intro authConfig timeout imageRef env cache resp1 hdr p hp1 h401 hw hp hmiss
    exact verifyManifest_tokreq_of_miss authConfig timeout imageRef env cache
      resp1 hdr p hp1 h401 hw hp hmiss
  · intro authConfig imageRef hdr env cache p hp hmiss resp data hout hok hjson ht
    exact getToken_store authConfig imageRef hdr env cache p hp hmiss resp
      hout hok data hjson ht

/-- A 401 challenge carrying the example realm header. -/
def respC5w : HttpResp :=
  { status := 401, statusText := [], wwwAuthenticate := some hdrC5
    bodyText := [] }

def envC5w : CheckEnv :=
  { verifyEnv := { probe1 := .ok respC5w, tokenEnv := defaultTokenEnv
                   probe2 := fun _ => .ok defaultHttpResp } }

/-- A cache holding a still-valid token for the probed key. -/
def cacheC5w : TokenCache :=
  [(cacheKeyOf (checkRefOf defaultCfg (str "nginx")),
    { token := str "tok", expiresAt := 1000 })]

/-- Witness for C5: the cached token is reused — no token request occurs. -/
theorem claim_C5_token_cache_witness :
    ((checkImageExists defaultCfg (str "nginx") envC5w cacheC5w).2.2).filter
      isTokReqEv = [] :=
  claim_C5_token_cache.1 defaultCfg (str "nginx") envC5w cacheC5w
    { token := str "tok", expiresAt := 1000 } rfl (by decide)

/-- C6: the clone path.  (1) A failed source-connectivity probe fails the
clone with a described error after one probe — no fetch and no push; (2)
likewise for a failed target probe after a reachable source; (3) with both
probes reachable, a fetched nonempty manifest and an accepted push, the
clone succeeds and the `PUT` carries the exact fetched body with its
declared-or-default media type as content type; (4) in the engine, on the
clone path every clone succeeding yields an allow verdict, and any clone
failure yields a deny verdict whose message contains that clone's error
text. -/
theorem claim_C6_clone :
    (∀ (cfg : ClientConfig) (src tgt : Str) (env : CloneEnv) (cache : TokenCache),
      (testRegistryConnectivity (parseImageReference src).registry
        env.sourceConn).1.success = false →
      (cloneImage cfg src tgt env cache).1.success = false ∧
      (cloneImage cfg src tgt env cache).1.error ≠ none ∧
      ((cloneImage cfg src tgt env cache).2.2).filter isManifestGetEv = [] ∧
      ((cloneImage cfg src tgt env cache).2.2).filter isManifestPutEv = []) ∧
    (∀ (cfg : ClientConfig) (src tgt : Str) (env : CloneEnv) (cache : TokenCache),
      (testRegistryConnectivity (parseImageReference src).registry
        env.sourceConn).1.success = true →
      (testRegistryConnectivity
        (parseImageReference (buildTargetImage tgt (parseImageReference src))).registry
        env.targetConn).1.success = false →
      (cloneImage cfg src tgt env cache).1.success = false ∧
      (cloneImage cfg src tgt env cache).1.error ≠ none ∧
      ((cloneImage cfg src tgt env cache).2.2).filter isManifestGetEv = [] ∧
      ((cloneImage cfg src tgt env cache).2.2).filter isManifestPutEv = []) ∧
    (∀ (cfg : ClientConfig) (src tgt : Str) (env : CloneEnv) (cache : TokenCache)
        (manifest : Str) (obj : JsonVal),
      (testRegistryConnectivity (parseImageReference src).registry
        env.sourceConn).1.success = true →
      (testRegistryConnectivity
        (parseImageReference (buildTargetImage tgt (parseImageReference src))).registry
        env.targetConn).1.success = true →
      (getManifest cfg.authConfig cfg.timeout (parseImageReference src)
        env.getEnv cache).1 = .ok manifest →
      manifest.isEmpty = false →
      env.jsonParse manifest = .ok obj →
      (pushManifest cfg.authConfig cfg.timeout env.jsonParse
        (parseImageReference (buildTargetImage tgt (parseImageReference src)))
        manifest env.pushEnv
        (getManifest cfg.authConfig cfg.timeout (parseImageReference src)
          env.getEnv cache).2.1).1 = .ok () →
      (cloneImage cfg src tgt env cache).1 = { success := true, error := none } ∧
      ∃ auth,
        Event.manifestPut
          (parseImageReference (buildTargetImage tgt (parseImageReference src))).registry
          (parseImageReference (buildTargetImage tgt (parseImageReference src))).repository
          (jsRefOf (parseImageReference (buildTargetImage tgt (parseImageReference src))))
          (contentTypeOf obj) manifest auth ∈
          (cloneImage cfg src tgt env cache).2.2) ∧
    (∀ (cfg : ClientConfig) (env : HandlerEnv) (req : AdmissionRequest)
        (cache : TokenCache) (kindStr : Str),
      req.kindObj = some kindStr →
      jsTruthy req.subResource = false →
      (req.operation = str "CREATE" ∨ req.operation = str "UPDATE") →
      extractImagesFromObject kindStr req.objectSpec ≠ [] →
      jsTruthy cfg.targetRegistry = true →
      ((checkImages cfg env.batch (extractImagesFromObject kindStr req.objectSpec)
        cache).1.filter fun r => !r.existsB) ≠ [] →
      (((runClones cfg env.clonePerImage (cfg.targetRegistry.getD [])
          ((checkImages cfg env.batch
            (extractImagesFromObject kindStr req.objectSpec) cache).1.filter
            fun r => !r.existsB)
          (checkImages cfg env.batch
            (extractImagesFromObject kindStr req.objectSpec) cache).2.1).1.filter
          fun r => !r.success) = [] →
        ∃ resp, (handleAdmissionReview cfg env req cache).1 = .ok resp ∧
          resp.response.allowed = true) ∧
      (∀ fc ∈ ((runClones cfg env.clonePerImage (cfg.targetRegistry.getD [])
          ((checkImages cfg env.batch
            (extractImagesFromObject kindStr req.objectSpec) cache).1.filter
            fun r => !r.existsB)
          (checkImages cfg env.batch
            (extractImagesFromObject kindStr req.objectSpec) cache).2.1).1.filter
          fun r => !r.success),
        ∃ resp, (handleAdmissionReview cfg env req cache).1 = .ok resp ∧
          resp.response.allowed = false ∧
          resp.response.status =
            some { code := 403
                   message := cloneFailMessage
                     ((runClones cfg env.clonePerImage (cfg.targetRegistry.getD [])
                       ((checkImages cfg env.batch
                         (extractImagesFromObject kindStr req.objectSpec) cache).1.filter
                         fun r => !r.existsB)
                       (checkImages cfg env.batch
                         (extractImagesFromObject kindStr req.objectSpec) cache).2.1).1.filter
                       fun r => !r.success) } ∧
          segIn (interpOpt fc.error)
            (cloneFailMessage
              ((runClones cfg env.clonePerImage (cfg.targetRegistry.getD [])
                ((checkImages cfg env.batch
                  (extractImagesFromObject kindStr req.objectSpec) cache).1.filter
                  fun r => !r.existsB)
                (checkImages cfg env.batch
                  (extractImagesFromObject kindStr req.objectSpec) cache).2.1).1.filter
                fun r => !r.success)) = true)) := by
  refine ⟨?_, ?_, ?_, ?_⟩
  · intro cfg src tgt env cache hsc
    have h := cloneImage_sourceFail cfg src tgt env cache hsc
    rw [h]
    exact ⟨rfl, by simp, rfl, rfl⟩
  · intro cfg src tgt env cache hsc htc
    have h := cloneImage_targetFail cfg src tgt env cache hsc htc
    rw [h]
    exact ⟨rfl, by simp, rfl, rfl⟩
  · exact fun cfg src tgt env cache manifest obj hsc htc hget hm hjson hpush =>
      cloneImage_success cfg src tgt env cache manifest obj hsc htc hget hm
        hjson hpush
  · intro cfg env req cache kindStr hk hsub hop himgs htarget hmiss
    have hval := handleAdmissionReview_validation cfg env req cache kindStr
      hk hsub hop himgs
    have hcp := validationStage_clonePath cfg env req.uid
      (extractImagesFromObject kindStr req.objectSpec) cache htarget hmiss
    constructor
    · intro hf
      refine ⟨createAllowedResponse req.uid
        (formatValidationWarnings (checkImages cfg env.batch
          (extractImagesFromObject kindStr req.objectSpec) cache).1), ?_, rfl⟩
      rw [hval, hcp, if_neg (by simp [hf])]
    · intro fc hfc
      have hf : ((runClones cfg env.clonePerImage (cfg.targetRegistry.getD [])
          ((checkImages cfg env.batch
            (extractImagesFromObject kindStr req.objectSpec) cache).1.filter
            fun r => !r.existsB)
          (checkImages cfg env.batch
            (extractImagesFromObject kindStr req.objectSpec) cache).2.1).1.filter
          fun r => !r.success) ≠ [] := by
        intro hcon
        rw [hcon] at hfc
        cases hfc
      refine ⟨createDeniedResponse req.uid (cloneFailMessage _), ?_, rfl, rfl, ?_⟩
      · rw [hval, hcp, if_pos hf]
      · exact (cloneFailMessage_parts _ fc hfc).2

/-- A clone environment whose source registry is unreachable. -/
def cloneEnvC6 : CloneEnv :=
  { defaultCloneEnv with sourceConn := { outcome := .error .abort } }

/-- Witness for C6: an unreachable source fails the clone with no fetch and
no push issued. -/
theorem claim_C6_clone_witness :
    (cloneImage defaultCfg (str "nginx") (str "t.example.com") cloneEnvC6 []).1.success
        = false ∧
    (cloneImage defaultCfg (str "nginx") (str "t.example.com") cloneEnvC6 []).1.error
        ≠ none ∧
    ((cloneImage defaultCfg (str "nginx") (str "t.example.com") cloneEnvC6 []).2.2).filter
        isManifestGetEv = [] ∧
    ((cloneImage defaultCfg (str "nginx") (str "t.example.com") cloneEnvC6 []).2.2).filter
        isManifestPutEv = [] :=
  claim_C6_clone.1 defaultCfg (str "nginx") (str "t.example.com") cloneEnvC6 [] rfl

/-- C7 counterexample: `index.docker.io/nginx` and `nginx` do NOT parse to
the same canonical registry host nor the same repository — the
`index.docker.io` alias is not normalized by the parser. -/
theorem claim_C7_counterexample :
    (parseImageReference (str "index.docker.io/nginx")).registry ≠
      (parseImageReference (str "nginx")).registry ∧
    (parseImageReference (str "index.docker.io/nginx")).repository ≠
      (parseImageReference (str "nginx")).repository := by
  exact ⟨by decide, by decide⟩

/-- C7 (amended): the bare form and the `docker.io/` alias of a
single-segment name agree on the canonical host `registry-1.docker.io` and
the `library/`-prefixed repository; the `index.docker.io` alias is
normalized only by the credential lookup's `normalizeRegistryHost`, not by
the parser, which leaves its registry as `index.docker.io` (and its
repository unprefixed). -/
theorem claim_C7_alias :
    (∀ name : Str, '@' ∉ name → ':' ∉ name → '/' ∉ name →
      parseImageReference name =
        { registry := str "registry-1.docker.io"
          repository := str "library/" ++ name
          tag := str "latest", digest := none, fullImage := name } ∧
      parseImageReference (str "docker.io/" ++ name) =
        { registry := str "registry-1.docker.io"
          repository := str "library/" ++ name
          tag := str "latest", digest := none
          fullImage := str "docker.io/" ++ name }) ∧
    normalizeRegistryHost (str "docker.io") = str "registry-1.docker.io" ∧
    normalizeRegistryHost (str "index.docker.io") = str "registry-1.docker.io" ∧
    normalizeRegistryHost (str "registry-1.docker.io") =
      str "registry-1.docker.io" ∧
    (parseImageReference (str "index.docker.io/nginx")).registry =
      str "index.docker.io" ∧
    (parseImageReference (str "index.docker.io/nginx")).repository = str "nginx" := by
  refine ⟨?_, by decide, by decide, by decide, by decide, by decide⟩
  intro name h1 h2 h3
  exact ⟨parseImageReference_bare name h1 h2 h3,
    parseImageReference_dockerio name h1 h2 h3⟩

/-- Witness for C7 (amended) at the name `nginx`. -/
theorem claim_C7_alias_witness :
    parseImageReference (str "nginx") =
      { registry := str "registry-1.docker.io"
        repository := str "library/" ++ str "nginx"
        tag := str "latest", digest := none, fullImage := str "nginx" } ∧
    parseImageReference (str "docker.io/" ++ str "nginx") =
      { registry := str "registry-1.docker.io"
        repository := str "library/" ++ str "nginx"
        tag := str "latest", digest := none
        fullImage := str "docker.io/" ++ str "nginx" } :=
  claim_C7_alias.1 (str "nginx") (by decide) (by decide) (by decide)

/-- Deduplication keeps every occurring string. -/
theorem dedupAux_mem (seen : List Str) (l : List Str) (x : Str) (hx : x ∈ l)
    (hns : x ∉ seen) : x ∈ dedupAux seen l := by
  induction l generalizing seen with
  | nil => cases hx
  | cons a as ih =>
    by_cases ha : a ∈ seen
    · simp only [dedupAux, if_pos ha]
      rcases List.mem_cons.mp hx with rfl | hx'
      · exact absurd ha hns
      · exact ih seen hx' hns
    · simp only [dedupAux, if_neg ha]
      rcases List.mem_cons.mp hx with rfl | hx'
      · exact List.mem_cons_self _ _
      · by_cases hxa : x = a
        · subst hxa
          exact List.mem_cons_self _ _
        · exact List.mem_cons_of_mem _ (ih (a :: seen) hx' (by simp [hxa, hns]))

theorem dedupFirstSeen_mem (l : List Str) (x : Str) (hx : x ∈ l) :
    x ∈ dedupFirstSeen l :=
  dedupAux_mem [] l x hx (by simp)

/-- C8: batch deduplication.  The batch returns exactly one result per
distinct input string, in first-seen order, each tagged with its unique
input; it performs exactly one underlying existence check per distinct
string (the deduplicated list is duplicate-free and the recorded check
events match it exactly); and every input occurrence — duplicates included —
maps to a unique entry. -/
theorem claim_C8_batch (cfg : ClientConfig) (env : BatchEnv) (images : List Str)
    (cache : TokenCache) :
    ((checkImages cfg env images cache).1).map (·.image) = dedupFirstSeen images ∧
    ((checkImages cfg env images cache).2.2).filter isExistenceCheckEv =
      (dedupFirstSeen images).map Event.existenceCheck ∧
    (dedupFirstSeen images).Nodup ∧
    (checkImages cfg env images cache).1.length = (dedupFirstSeen images).length ∧
    (∀ img ∈ images, img ∈ dedupFirstSeen images) := by
  refine ⟨runChecks_images cfg env (dedupFirstSeen images) cache,
    runChecks_checkEvents cfg env (dedupFirstSeen images) cache,
    dedupFirstSeen_nodup images, ?_, fun img h => dedupFirstSeen_mem images img h⟩
  have h : ((checkImages cfg env images cache).1).map (·.image) =
      dedupFirstSeen images :=
    runChecks_images cfg env (dedupFirstSeen images) cache
  calc (checkImages cfg env images cache).1.length
      = (((checkImages cfg env images cache).1).map (·.image)).length :=
        (List.length_map _ _).symm
    _ = (dedupFirstSeen images).length := by rw [h]

/-- Witness for C8 on a duplicated batch. -/
theorem claim_C8_batch_witness :
    ((checkImages defaultCfg { perImage := fun _ => defaultCheckEnv }
      [str "a", str "a", str "b"] []).1).map (·.image) =
        dedupFirstSeen [str "a", str "a", str "b"] ∧
    str "a" ∈ dedupFirstSeen [str "a", str "a", str "b"] :=
  ⟨(claim_C8_batch defaultCfg { perImage := fun _ => defaultCheckEnv }
      [str "a", str "a", str "b"] []).1,
    (claim_C8_batch defaultCfg { perImage := fun _ => defaultCheckEnv }
      [str "a", str "a", str "b"] []).2.2.2.2 (str "a") (by decide)⟩

/-- Configuration with a target registry, for the C9 counterexample. -/
def cfgC9 : ClientConfig :=
  { authConfig := defaultAuthConfig, targetRegistry := some (str "t.example.com")
    timeout := 240000, insecureRegistries := [] }

/-- A pod spec with one `nginx` container. -/
def dynC9 : Dyn := .mk (some [{ image := some (str "nginx") }]) none none none none

def reqC9 : AdmissionRequest :=
  { uid := str "u", kindObj := some (str "Pod"), objectSpec := some dynC9
    operation := str "CREATE", subResource := none }

/-- Push rejected with a 500. -/
def pushEnvC9 : PushEnv :=
  { put1 := .ok { status := 500, statusText := str "boom", wwwAuthenticate := none
                  bodyText := [] }
    tokenEnv := defaultTokenEnv
    put2 := fun _ => .ok defaultHttpResp }

def cloneEnvC9 : CloneEnv :=
  { sourceConn := defaultConnEnv, targetConn := defaultConnEnv
    getEnv := { get1 := .ok { status := 200, statusText := []
                              wwwAuthenticate := none, bodyText := str "x" }
                tokenEnv := defaultTokenEnv
                get2 := fun _ => .ok defaultHttpResp }
    jsonParse := fun _ => .ok { mediaType := none }
    pushEnv := pushEnvC9 }

def envC9 : HandlerEnv :=
  { batch := { perImage := fun _ => defaultCheckEnv }
    clonePerImage := fun _ => cloneEnvC9 }

/-- The clone-failure denial message produced in the C9 counterexample run. -/
def msgC9 : Str :=
  cloneFailMessage [{ image := str "nginx", success := false
                      error := some (str "Failed to push manifest: 500 boom") }]

/-- C9 counterexample: a clone-failure denial names the offending image and
the clone error but NOT the image's registry — neither the configured target
registry (which is where the result's `registry` field points) nor the
source registry occurs in the message, refuting "naming each image, its
registry ... on both paths". -/
theorem claim_C9_counterexample :
    (handleAdmissionReview cfgC9 envC9 reqC9 []).1 =
      .ok (createDeniedResponse (str "u") msgC9) ∧
    segIn (str "t.example.com") msgC9 = false ∧
    segIn (str "registry-1.docker.io") msgC9 = false ∧
    segIn (str "nginx") msgC9 = true := by
  exact ⟨rfl, by decide, by decide, by decide⟩

/-- C9 (amended): the missing-images denial names each offending image, its
registry and (when set) its error; the clone-failure denial names each
failed image and its clone error text (but not its registry); and on the
no-target path the engine's denial message is exactly the aggregated
missing-images message. -/
theorem claim_C9_deny_message :
    (∀ (missing : List ImageValidationResult) (r : ImageValidationResult),
      r ∈ missing →
      segIn r.image (formatValidationError missing) = true ∧
      segIn r.registry (formatValidationError missing) = true ∧
      (jsTruthy r.error = true →
        segIn (interpOpt r.error) (formatValidationError missing) = true)) ∧
    (∀ (failed : List CloneResultWithImage) (fc : CloneResultWithImage),
      fc ∈ failed →
      segIn fc.image (cloneFailMessage failed) = true ∧
      segIn (interpOpt fc.error) (cloneFailMessage failed) = true) ∧
    (∀ (cfg : ClientConfig) (env : HandlerEnv) (req : AdmissionRequest)
        (cache : TokenCache) (kindStr : Str),
      req.kindObj = some kindStr →
      jsTruthy req.subResource = false →
      (req.operation = str "CREATE" ∨ req.operation = str "UPDATE") →
      extractImagesFromObject kindStr req.objectSpec ≠ [] →
      jsTruthy cfg.targetRegistry = false →
      ((checkImages cfg env.batch (extractImagesFromObject kindStr req.objectSpec)
        cache).1.filter fun r => !r.existsB) ≠ [] →
      (handleAdmissionReview cfg env req cache).1 =
        .ok (createDeniedResponse req.uid (formatValidationError
          ((checkImages cfg env.batch
            (extractImagesFromObject kindStr req.objectSpec) cache).1.filter
            fun r => !r.existsB)))) := by
  refine ⟨formatValidationError_parts, cloneFailMessage_parts, ?_⟩
  intro cfg env req cache kindStr hk hsub hop himgs htarget hmiss
  rw [handleAdmissionReview_validation cfg env req cache kindStr hk hsub hop himgs]
  exact validationStage_denyNoTarget cfg env req.uid _ cache htarget hmiss

/-- A two-element missing list for the C9 witness. -/
def missingC9w : List ImageValidationResult :=
  [{ image := str "a", existsB := false, error := some (str "e1"), registry := str "r1" },
   { image := str "b", existsB := false, error := none, registry := str "r2" }]

/-- Witness for C9 (amended): both entries of a two-image denial are named
with their registries, and the first one's error text appears. -/
theorem claim_C9_deny_message_witness :
    (segIn (str "a") (formatValidationError missingC9w) = true ∧
      segIn (str "r1") (formatValidationError missingC9w) = true ∧
      (jsTruthy (some (str "e1")) = true →
        segIn (interpOpt (some (str "e1"))) (formatValidationError missingC9w) = true)) ∧
    (segIn (str "b") (formatValidationError missingC9w) = true ∧
      segIn (str "r2") (formatValidationError missingC9w) = true) := by
  constructor
  · exact claim_C9_deny_message.1 missingC9w
      { image := str "a", existsB := false, error := some (str "e1")
        registry := str "r1" } (by decide)
  · have h := claim_C9_deny_message.1 missingC9w
      { image := str "b", existsB := false, error := none, registry := str "r2" }
      (by decide)
    exact ⟨h.1, h.2.1⟩

/-- C10: invariant — a result of `checkImageExists` never has `exists=true`
together with a set error field; consequently the warnings computed over any
batch result list are empty, and every allow verdict of the engine (the
validated path included) carries no validation warning. -/
theorem claim_C10_no_warning :
    (∀ (cfg : ClientConfig) (image : Str) (env : CheckEnv) (cache : TokenCache),
      ((checkImageExists cfg image env cache).1.existsB &&
        (checkImageExists cfg image env cache).1.error.isSome) = false) ∧
    (∀ (cfg : ClientConfig) (env : BatchEnv) (images : List Str)
        (cache : TokenCache),
      formatValidationWarnings (checkImages cfg env images cache).1 = none) ∧
    (∀ (cfg : ClientConfig) (env : HandlerEnv) (req : AdmissionRequest)
        (cache : TokenCache) (resp : AdmissionReviewResponse),
      (handleAdmissionReview cfg env req cache).1 = .ok resp →
      resp.response.warnings = none) := by
  refine ⟨checkImageExists_inv, ?_, handleAdmissionReview_ok_warnings⟩
  intro cfg env images cache
  exact formatValidationWarnings_none _
    (runChecks_inv cfg env (dedupFirstSeen images) cache)

/-- A skip-path request for the C10 witness. -/
def reqC10w : AdmissionRequest :=
  { uid := str "w", kindObj := some (str "Pod"), objectSpec := none
    operation := str "CREATE", subResource := some (str "status") }

/-- Witness for C10: a concrete allow verdict carries no warnings. -/
theorem claim_C10_no_warning_witness :
    (createAllowedResponse (str "w") none).response.warnings = none :=
  claim_C10_no_warning.2.2 defaultCfg defaultHandlerEnv reqC10w []
    (createAllowedResponse (str "w") none) rfl

end ImageReplicator
